import Mathlib

/-!
# simple_tcp_mux: a shallow embedding of the dispatcher and the process launcher

The development follows `src/simple_tcp_mux.cpp` (the event loop `handle_requests`
with `cleanup_child`, `cleanup_client`, `start_tunnel_process`) and
`src/subprocess.cpp` (`Subprocess::launch`, `write`, `wait`, `shutdown`,
`close_pipes`, `child_move_fd_above_2`, `child_setup_pipes`).

System calls are answered by an explicit environment: every iteration of the loop
receives an `IterEnv` holding what `poll`, `accept`, `pipe2`, `fork`, `read` and
`write` return in that iteration.  Every system call the code performs is appended
to a trace of `Event`s kept in the state.  Log lines are not modelled, except the
one `cleanup_client` emits for a server-side disconnect.
-/

namespace SimpleTcpMux

/-! ## poll(2) constants and descriptors -/

/-- Readiness bit: data to read. -/
def POLLIN : Nat := 1
/-- Readiness bit: error condition. -/
def POLLERR : Nat := 8
/-- Readiness bit: hang up. -/
def POLLHUP : Nat := 16

/-- Size of the scratch buffer of `handle_requests`. -/
def BUF_SIZ : Nat := 1024

/-- Number of entries `handle_requests` hands to `poll`. -/
def NFDS : Nat := 5

/-- One entry of the table given to `poll`. -/
structure pollfd where
  fd : Int
  events : Nat
  revents : Nat
deriving DecidableEq, Repr

/-! ## Process launcher: the `Subprocess` object -/

/-- The object of class `Subprocess`: the pid and `pipes[3][2]`
(stdin/stdout/stderr, read/write). -/
structure Subprocess where
  pid : Int
  stdin_read : Int
  stdin_write : Int
  stdout_read : Int
  stdout_write : Int
  stderr_read : Int
  stderr_write : Int
deriving DecidableEq, Repr

/-- System calls (and the one modelled log line) in the order they are performed. -/
inductive Event where
  /-- The call `poll(fds, nfds, 10000)` with the table it is handed. -/
  | sys_poll (fds : List pollfd) (nfds : Nat)
  /-- The call `accept(listener_fd, ..)`; `client_fd` is the value `client->fd` has when the
  call is made (recorded to state single tenancy), `result` is what the call returns. -/
  | sys_accept (listener_fd : Int) (client_fd : Int) (result : Int)
  | sys_close (fd : Int)
  | sys_read (fd : Int) (result : Int) (data : List Nat)
  | sys_write (fd : Int) (data : List Nat) (result : Int)
  | sys_pipe2 (result : Option (Nat × Nat))
  | sys_fork (result : Int)
  | sys_waitpid (pid : Int)
  /-- The function `Subprocess::launch` is entered. -/
  | launch_called
  /-- The line `LOG_INFO("Disconnect client")` of `cleanup_client`. -/
  | log_disconnect_client
deriving DecidableEq, Repr

/-- Function `Subprocess::Subprocess()`: all six pipe ends are -1. -/
def Subprocess.new : Subprocess :=
  { pid := 0, stdin_read := -1, stdin_write := -1, stdout_read := -1,
    stdout_write := -1, stderr_read := -1, stderr_write := -1 }

/-- Function `close_pipe(int &fd)`: `close(fd)`; on success the descriptor becomes -1, on failure it is
left as it is.  `close` succeeds exactly on a non-negative descriptor. -/
def close_pipe (fd : Int) : Int × List Event :=
  if 0 ≤ fd then (-1, [Event.sys_close fd]) else (fd, [Event.sys_close fd])

/-- The body of the loop of `Subprocess::close_pipes` for one `pipes[i][j]`. -/
def close_if_open (fd : Int) : Int × List Event :=
  if fd ≠ -1 then close_pipe fd else (fd, [])

/-- Function `Subprocess::close_pipes`: for i in 0..2, for j in 0..1, close `pipes[i][j]` unless it is -1. -/
def Subprocess.close_pipes (h : Subprocess) : Subprocess × List Event :=
  let a := close_if_open h.stdin_read
  let b := close_if_open h.stdin_write
  let c := close_if_open h.stdout_read
  let d := close_if_open h.stdout_write
  let e := close_if_open h.stderr_read
  let f := close_if_open h.stderr_write
  ({ pid := h.pid, stdin_read := a.1, stdin_write := b.1, stdout_read := c.1,
     stdout_write := d.1, stderr_read := e.1, stderr_write := f.1 },
   a.2 ++ b.2 ++ c.2 ++ d.2 ++ e.2 ++ f.2)

/-- Function `Subprocess::~Subprocess()`: closes the remaining open pipes, and nothing else. -/
def Subprocess.destroy (h : Subprocess) : List Event :=
  (h.close_pipes).2

/-- Function `Subprocess::parent_close_pipes`: the parent closes the three ends handed to the child. -/
def Subprocess.parent_close_pipes (h : Subprocess) : Subprocess × List Event :=
  let a := close_pipe h.stdin_read
  let b := close_pipe h.stdout_write
  let c := close_pipe h.stderr_write
  ({ h with stdin_read := a.1, stdout_write := b.1, stderr_write := c.1 }, a.2 ++ b.2 ++ c.2)

/-- What `waitpid(pid, &status, 0)` answers. -/
inductive WaitAnswer where
  | error
  | exited (code : Nat)
  | signaled (sig : Nat)
  | other
deriving DecidableEq, Repr

/-- Function `Subprocess::wait`: blocking reap; exit status, negative signal number, or -1. -/
def Subprocess.wait (h : Subprocess) (a : WaitAnswer) : Int × List Event :=
  match a with
  | .error => (-1, [Event.sys_waitpid h.pid])
  | .exited code => (code, [Event.sys_waitpid h.pid])
  | .signaled sig => (-(sig : Int), [Event.sys_waitpid h.pid])
  | .other => (-1, [Event.sys_waitpid h.pid])

/-- Function `Subprocess::shutdown`: `close_pipes()` then `wait()`. -/
def Subprocess.shutdown (h : Subprocess) (a : WaitAnswer) : Subprocess × List Event :=
  let c := h.close_pipes
  (c.1, c.2 ++ (c.1.wait a).2)

/-- What the environment answers during one `Subprocess::launch`. -/
structure LaunchEnv where
  /-- Result of the three `pipe2` calls: `none` on failure, else (read end, write end). -/
  pipe_stdin : Option (Nat × Nat)
  pipe_stdout : Option (Nat × Nat)
  pipe_stderr : Option (Nat × Nat)
  /-- Result of `fork` in the parent: `none` when it fails (negative), `some k` for pid `k + 1`. -/
  fork : Option Nat
  /-- Whether `execvpe` succeeds in the forked child. -/
  exec_ok : Bool
deriving DecidableEq, Repr

/-- Function `Subprocess::init_pipes`: three `pipe2` calls; stops at the first failure with -1, leaving
the pipes created so far in the object. -/
def Subprocess.init_pipes (h : Subprocess) (env : LaunchEnv) : Int × Subprocess × List Event :=
  match env.pipe_stdin with
  | none => (-1, h, [Event.sys_pipe2 none])
  | some p0 =>
    let h0 := { h with stdin_read := (p0.1 : Int), stdin_write := (p0.2 : Int) }
    match env.pipe_stdout with
    | none => (-1, h0, [Event.sys_pipe2 (some p0), Event.sys_pipe2 none])
    | some p1 =>
      let h1 := { h0 with stdout_read := (p1.1 : Int), stdout_write := (p1.2 : Int) }
      match env.pipe_stderr with
      | none => (-1, h1, [Event.sys_pipe2 (some p0), Event.sys_pipe2 (some p1), Event.sys_pipe2 none])
      | some p2 =>
        (0, { h1 with stderr_read := (p2.1 : Int), stderr_write := (p2.2 : Int) },
          [Event.sys_pipe2 (some p0), Event.sys_pipe2 (some p1), Event.sys_pipe2 (some p2)])

/-- What became of the process created by `fork` inside `launch`. -/
inductive ChildFate where
  /-- The child called `_exit(status)`. -/
  | exited (status : Nat)
  /-- Function `execvpe` replaced the image by the command. -/
  | image_replaced
deriving DecidableEq, Repr

/-- Result of `Subprocess::launch(argv, 0, 0)`: what the caller (the parent) is returned, what
became of the forked child when there was a fork, and the system calls of the parent. -/
structure LaunchOutcome where
  handle : Option Subprocess
  child : Option ChildFate
  events : List Event
deriving DecidableEq, Repr

/-- The child side of `Subprocess::launch` with `dir == 0` (pid == 0): `child_setup_pipes()`, then
`execvpe`; when that returns, `_exit(72)`. -/
def launch_child (env : LaunchEnv) : ChildFate :=
  if env.exec_ok then ChildFate.image_replaced else ChildFate.exited 72

/-- Function `Subprocess::launch(argv, 0, 0)`: `new Subprocess`, `init_pipes`, `fork`; in the parent
`parent_close_pipes` and the handler is returned.  A failure of `init_pipes` or of `fork` deletes the
handler and returns 0.  The result of `execvpe` in the child does not reach the parent. -/
def Subprocess.launch (env : LaunchEnv) : LaunchOutcome :=
  let r := Subprocess.new.init_pipes env
  if r.1 ≠ 0 then
    { handle := none, child := none, events := [Event.launch_called] ++ r.2.2 ++ r.2.1.destroy }
  else
    match env.fork with
    | none =>
      { handle := none, child := none,
        events := [Event.launch_called] ++ r.2.2 ++ [Event.sys_fork (-1)] ++ r.2.1.destroy }
    | some k =>
      let h := { r.2.1 with pid := (k : Int) + 1 }
      let c := h.parent_close_pipes
      { handle := some c.1, child := some (launch_child env),
        events := [Event.launch_called] ++ r.2.2 ++ [Event.sys_fork ((k : Int) + 1)] ++ c.2 }

/-- Function `Subprocess::get_fd_stdin`. -/
def Subprocess.get_fd_stdin (h : Subprocess) : Int := h.stdin_write
/-- Function `Subprocess::get_fd_stdout`. -/
def Subprocess.get_fd_stdout (h : Subprocess) : Int := h.stdout_read
/-- Function `Subprocess::get_fd_stderr`. -/
def Subprocess.get_fd_stderr (h : Subprocess) : Int := h.stderr_read

/-! ## Connection dispatcher: state and environment -/

/-- The local variables of `handle_requests`: the table `fds[NFDS]` (entries 0..3 are `listener`,
`child_stdout`, `child_stderr`, `client`; entry 4 is never assigned), the handle `subp`, and the trace
of system calls performed so far. -/
structure State where
  listener : pollfd
  child_stdout : pollfd
  child_stderr : pollfd
  client : pollfd
  fds4 : pollfd
  subp : Option Subprocess
  trace : List Event
deriving DecidableEq, Repr

/-- What `poll` answers: failure (-1), or the readiness of each of the five entries. -/
structure PollAnswer where
  fail : Bool
  listener : Nat
  child_stdout : Nat
  child_stderr : Nat
  client : Nat
  fds4 : Nat
deriving DecidableEq, Repr

/-- What a `read` answers: an error, or the bytes available (none at end of stream). -/
inductive ReadAnswer where
  | error
  | data (bytes : List Nat)
deriving DecidableEq, Repr

/-- The answers of the environment to the system calls of one loop iteration. -/
structure IterEnv where
  poll : PollAnswer
  /-- Result of `accept`: negative on failure, else the new socket. -/
  accept : Int
  launch : LaunchEnv
  read_stdout : ReadAnswer
  read_stderr : ReadAnswer
  read_client : ReadAnswer
  /-- Result of `write` on the client socket: negative on failure, else the count accepted. -/
  write_client : Int
  /-- Result of `write` on the stdin pipe of the child. -/
  write_child : Int
deriving DecidableEq, Repr

/-- Appends system calls to the trace. -/
def State.log (s : State) (evs : List Event) : State :=
  { s with trace := s.trace ++ evs }

/-- The five entries of `fds` in index order. -/
def State.fds (s : State) : List pollfd :=
  [s.listener, s.child_stdout, s.child_stderr, s.client, s.fds4]

/-- What `poll` stores in `revents` of one entry: 0 for a negative `fd`, else the readiness. -/
def poll_revents (p : pollfd) (ready : Nat) : pollfd :=
  { p with revents := if p.fd < 0 then 0 else ready }

/-- The call `poll(fds, NFDS, 10000)`: on failure -1 and the table is left as it is; else every
`revents` is rewritten and the number of entries with a non-zero `revents` is returned. -/
def sys_poll (a : PollAnswer) (s : State) : Int × State :=
  let s0 := s.log [Event.sys_poll (s.fds.take NFDS) NFDS]
  if a.fail then (-1, s0)
  else
    let s1 := { s0 with
      listener := poll_revents s0.listener a.listener,
      child_stdout := poll_revents s0.child_stdout a.child_stdout,
      child_stderr := poll_revents s0.child_stderr a.child_stderr,
      client := poll_revents s0.client a.client,
      fds4 := poll_revents s0.fds4 a.fds4 }
    ((((s1.fds.take NFDS).filter (fun p => p.revents ≠ 0)).length : Int), s1)

/-- The call `accept(fd, NULL, NULL)`: -1 on a negative descriptor or when the environment reports
a failure, else the new socket. -/
def sys_accept (fd : Int) (a : Int) : Int :=
  if fd < 0 then -1 else if a < 0 then -1 else a

/-- The call `read(fd, buffer, size)`: -1 on a negative descriptor or an error, else the number of
bytes stored, together with these bytes (at most `size`; none at end of stream). -/
def sys_read (fd : Int) (size : Nat) (a : ReadAnswer) : Int × List Nat :=
  if fd < 0 then (-1, [])
  else
    match a with
    | .error => (-1, [])
    | .data bytes => (((bytes.take size).length : Int), bytes.take size)

/-- The call `write(fd, buffer, n)`: -1 on a negative descriptor or an error, else the count
accepted, which is at most the length offered. -/
def sys_write (fd : Int) (buf : List Nat) (a : Int) : Int :=
  if fd < 0 then -1 else if a < 0 then -1 else min a (buf.length : Int)

/-- Control flow at the end of a branch of the loop body. -/
inductive Flow where
  /-- Falls through to the next `if` of the loop body. -/
  | pass (s : State)
  /-- The statement `continue`. -/
  | next (s : State)
  /-- The statement `break`, with the value of `err`. -/
  | exit (s : State) (err : Int)
deriving DecidableEq, Repr

/-- Sequencing of the branches of the loop body. -/
def Flow.andThen (f : Flow) (k : State → Flow) : Flow :=
  match f with
  | .pass s => k s
  | .next s => .next s
  | .exit s err => .exit s err

/-- The state carried by a control-flow result. -/
def Flow.state : Flow → State
  | .pass s => s
  | .next s => s
  | .exit s _ => s

/-- Function `cleanup_child(subp, fd_stdout, fd_stderr)`: `delete subp` (the destructor, when the handle
is not null), `subp = 0`, both descriptors set to -1. -/
def cleanup_child (s : State) : State :=
  let evs := match s.subp with
    | none => []
    | some h => h.destroy
  { s with
    subp := none,
    child_stdout := { s.child_stdout with fd := -1 },
    child_stderr := { s.child_stderr with fd := -1 },
    trace := s.trace ++ evs }

/-- Function `cleanup_client(fd, server_side_disconnect)`: closes `fd` when it is non-negative (after the
log line of a server-side disconnect), then sets it to -1. -/
def cleanup_client (s : State) (server_side_disconnect : Bool) : State :=
  let evs :=
    if 0 ≤ s.client.fd then
      (if server_side_disconnect then [Event.log_disconnect_client] else [])
        ++ [Event.sys_close s.client.fd]
    else []
  { s with client := { s.client with fd := -1 }, trace := s.trace ++ evs }

/-- Assignment `listener->fd = v`. -/
def State.set_listener_fd (s : State) (v : Int) : State :=
  { s with listener := { s.listener with fd := v } }

/-- Assignment `client->fd = v`. -/
def State.set_client_fd (s : State) (v : Int) : State :=
  { s with client := { s.client with fd := v } }

/-- Function `start_tunnel_process(argc, args, fd_stdout, fd_stderr)`: 0 when `argc <= 0` (nothing is
launched) or when `Subprocess::launch` returns 0; else the handle, and the two descriptors are set
from it. -/
def start_tunnel_process (argc : Int) (env : LaunchEnv) (s : State) : Option Subprocess × State :=
  if argc ≤ 0 then (none, s)
  else
    let r := Subprocess.launch env
    match r.handle with
    | none => (none, s.log r.events)
    | some h =>
      (some h, { s with
        child_stdout := { s.child_stdout with fd := h.get_fd_stdout },
        child_stderr := { s.child_stderr with fd := h.get_fd_stderr },
        trace := s.trace ++ r.events })

/-! ## Connection dispatcher: the loop body, branch by branch -/

/-- Test `revents & POLLIN`. -/
def has_in (p : pollfd) : Bool := p.revents &&& POLLIN != 0

/-- Test `(revents & POLLHUP) || (revents & POLLERR)`. -/
def has_hup_err (p : pollfd) : Bool := p.revents &&& POLLHUP != 0 || p.revents &&& POLLERR != 0

/-- Lines 139-151: the call to `poll`; -1 leaves the loop, 0 (timeout) continues. -/
def stage_poll (e : IterEnv) (s : State) : Flow :=
  let r := sys_poll e.poll s
  if r.1 = -1 then Flow.exit r.2 (-1)
  else if r.1 = 0 then Flow.next r.2
  else Flow.pass r.2

/-- Lines 153-181: a new client is connecting.  A failed `accept` continues; else the listener
is taken out of the table, the client is inserted, and when there is no child it is started; a
failed start leaves the loop with -1. -/
def stage_listener (argc : Int) (e : IterEnv) (s : State) : Flow :=
  if has_in s.listener then
    let client_sock := sys_accept s.listener.fd e.accept
    let s1 := s.log [Event.sys_accept s.listener.fd s.client.fd client_sock]
    if client_sock < 0 then Flow.next s1
    else
      let s2 := (s1.set_listener_fd (-1)).set_client_fd client_sock
      match s2.subp with
      | some _ => Flow.pass s2
      | none =>
        let r := start_tunnel_process argc e.launch s2
        match r.1 with
        | none => Flow.exit r.2 (-1)
        | some h => Flow.pass { r.2 with subp := some h }
  else Flow.pass s

/-- Lines 183-189: hang up or error on the stdout of the child. -/
def stage_stdout_hup (listening_sock : Int) (s : State) : Flow :=
  if has_hup_err s.child_stdout then
    Flow.next ((cleanup_client (cleanup_child s) true).set_listener_fd listening_sock)
  else Flow.pass s

/-- Lines 191-231: data on the stdout of the child.  A negative or zero `read` tears down child
and client; else the bytes are written to the client when `client->fd >= 0`, and a negative
`write` closes the client socket and sets `client->fd = -1`. -/
def stage_stdout_data (listening_sock : Int) (e : IterEnv) (s : State) : Flow :=
  if has_in s.child_stdout then
    let r := sys_read s.child_stdout.fd BUF_SIZ e.read_stdout
    let s1 := s.log [Event.sys_read s.child_stdout.fd r.1 r.2]
    if r.1 < 0 then
      Flow.next ((cleanup_client (cleanup_child s1) false).set_listener_fd listening_sock)
    else if r.1 = 0 then
      Flow.next ((cleanup_client (cleanup_child s1) false).set_listener_fd listening_sock)
    else if 0 ≤ s1.client.fd then
      let n := sys_write s1.client.fd r.2 e.write_client
      let s2 := s1.log [Event.sys_write s1.client.fd r.2 n]
      if n < 0 then
        Flow.pass ((s2.log [Event.sys_close s2.client.fd]).set_client_fd (-1))
      else Flow.pass s2
    else Flow.pass s1
  else Flow.pass s

/-- Lines 233-256: data on the stderr of the child; it is only logged.  A negative or zero `read`
tears down child and client. -/
def stage_stderr (listening_sock : Int) (e : IterEnv) (s : State) : Flow :=
  if has_in s.child_stderr then
    let r := sys_read s.child_stderr.fd (BUF_SIZ - 1) e.read_stderr
    let s1 := s.log [Event.sys_read s.child_stderr.fd r.1 r.2]
    if r.1 < 0 then
      Flow.next ((cleanup_client (cleanup_child s1) false).set_listener_fd listening_sock)
    else if r.1 = 0 then
      Flow.next ((cleanup_client (cleanup_child s1) false).set_listener_fd listening_sock)
    else Flow.pass s1
  else Flow.pass s

/-- Lines 258-263: hang up or error on the client socket. -/
def stage_client_hup (listening_sock : Int) (s : State) : Flow :=
  if has_hup_err s.client then
    Flow.next ((cleanup_client s false).set_listener_fd listening_sock)
  else Flow.pass s

/-- Lines 265-306: data on the client socket.  A negative or zero `read`, or a null `subp`,
detaches the client; else the bytes are written to the stdin of the child with one `write`, and a
negative result tears down child and client. -/
def stage_client_data (listening_sock : Int) (e : IterEnv) (s : State) : Flow :=
  if has_in s.client then
    let r := sys_read s.client.fd BUF_SIZ e.read_client
    let s1 := s.log [Event.sys_read s.client.fd r.1 r.2]
    if r.1 < 0 then
      Flow.next ((cleanup_client s1 false).set_listener_fd listening_sock)
    else if r.1 = 0 then
      Flow.next ((cleanup_client s1 false).set_listener_fd listening_sock)
    else
      match s1.subp with
      | none => Flow.next ((cleanup_client s1 false).set_listener_fd listening_sock)
      | some h =>
        let n := sys_write h.get_fd_stdin r.2 e.write_child
        let s2 := s1.log [Event.sys_write h.get_fd_stdin r.2 n]
        if n < 0 then
          Flow.next (cleanup_client ((cleanup_child s2).set_listener_fd listening_sock) false)
        else Flow.pass s2
  else Flow.pass s

/-- One pass through the body of `while (1)` (lines 137-307). -/
def iteration (listening_sock : Int) (argc : Int) (e : IterEnv) (s : State) : Flow :=
  ((((((stage_poll e s).andThen
    (stage_listener argc e)).andThen
    (stage_stdout_hup listening_sock)).andThen
    (stage_stdout_data listening_sock e)).andThen
    (stage_stderr listening_sock e)).andThen
    (stage_client_hup listening_sock)).andThen
    (stage_client_data listening_sock e)

/-- Lines 115-135: the table before the loop.  Entry 4 is declared and never assigned: its
content is whatever the stack holds (`junk`). -/
def init_state (listening_sock : Int) (junk : pollfd) : State :=
  { listener := { fd := listening_sock, events := POLLIN, revents := 0 },
    child_stdout := { fd := -1, events := POLLIN ||| POLLHUP ||| POLLERR, revents := 0 },
    child_stderr := { fd := -1, events := POLLIN, revents := 0 },
    client := { fd := -1, events := POLLIN ||| POLLHUP ||| POLLERR, revents := 0 },
    fds4 := junk,
    subp := none,
    trace := [] }

/-- The loop `while (1)` run on the answers of the environment, one `IterEnv` per iteration.
The result is the state together with `some err` when the loop was left by `break`, and `none`
when all the answers are used up and the loop is about to call `poll` again. -/
def run_loop (listening_sock : Int) (argc : Int) : List IterEnv → State → State × Option Int
  | [], s => (s, none)
  | e :: es, s =>
    match iteration listening_sock argc e s with
    | Flow.exit s1 err => (s1, some err)
    | Flow.next s1 => run_loop listening_sock argc es s1
    | Flow.pass s1 => run_loop listening_sock argc es s1

/-- Function `handle_requests(listening_sock, child_argc, child_argv)`: the table is set up, the
loop runs, and after a `break` child and client are cleaned up and `err` is returned
(lines 309-314).  `none` as result: the loop is still running. -/
def handle_requests (listening_sock : Int) (child_argc : Int) (junk : pollfd)
    (envs : List IterEnv) : State × Option Int :=
  let r := run_loop listening_sock child_argc envs (init_state listening_sock junk)
  match r.2 with
  | none => (r.1, none)
  | some err => (cleanup_client (cleanup_child r.1) false, some err)

/-! ## Observations on a trace -/

/-- The bytes descriptor `fd` accepted: for every `write` on `fd` with a non-negative result `n`,
the first `n` bytes offered, in order. -/
def written (fd : Int) : List Event → List Nat
  | [] => []
  | Event.sys_write f buf n :: evs =>
    if f = fd ∧ 0 ≤ n then buf.take n.toNat ++ written fd evs else written fd evs
  | _ :: evs => written fd evs

/-- The bytes read from descriptor `fd`: the data of every `read` on `fd`, in order. -/
def bytes_read (fd : Int) : List Event → List Nat
  | [] => []
  | Event.sys_read f _ data :: evs =>
    if f = fd then data ++ bytes_read fd evs else bytes_read fd evs
  | _ :: evs => bytes_read fd evs

/-- Sum of the counts accepted by the `write` calls of a trace. -/
def accepted_count : List Event → Nat
  | [] => 0
  | Event.sys_write _ _ n :: evs => n.toNat + accepted_count evs
  | _ :: evs => accepted_count evs

/-- Whether the event is a `write` that returned a negative value. -/
def Event.is_failed_write : Event → Bool
  | Event.sys_write _ _ n => decide (n < 0)
  | _ => false

/-- Whether the event is a `write`. -/
def Event.is_write : Event → Bool
  | Event.sys_write _ _ _ => true
  | _ => false

/-- Whether the event is a `waitpid`. -/
def Event.is_waitpid : Event → Bool
  | Event.sys_waitpid _ => true
  | _ => false

/-- Every event of the trace is a `write` on `fd`, and each is handed exactly the part of `data`
not accepted by the calls before it (`data` from offset `off` on at the first call). -/
def calls_given_suffix (fd : Int) (data : List Nat) : Nat → List Event → Prop
  | _, [] => True
  | off, Event.sys_write f buf n :: evs =>
    f = fd ∧ buf = data.drop off ∧ calls_given_suffix fd data (off + n.toNat) evs
  | _, _ :: _ => False

/-! ## Process launcher: `Subprocess::write` -/

/-- Modulus of `size_t`. -/
def SIZE_MODULUS : Nat := 2 ^ 64

/-- The loop of `Subprocess::write(data, len)` (lines 240-248) with `data` advanced by `off` and
`remaining` bytes to go; the list holds what the successive `::write` calls answer.  A negative
result returns -1; else `remaining -= n; data += n` in `size_t` arithmetic.  The result is `none`
when the answers are used up while `remaining` is not 0 (the next call has not returned). -/
def Subprocess.write_loop (fd : Int) (data : List Nat) :
    List Int → Nat → Nat → Option Int × List Event
  | _, _, 0 => (some 0, [])
  | [], _, _ + 1 => (none, [])
  | a :: rest, off, r + 1 =>
    let buf := (data.drop off).take (r + 1)
    let n := sys_write fd buf a
    if n < 0 then (some (-1), [Event.sys_write fd buf n])
    else
      let k := Subprocess.write_loop fd data rest (off + n.toNat)
        ((r + 1 + SIZE_MODULUS - n.toNat) % SIZE_MODULUS)
      (k.1, Event.sys_write fd buf n :: k.2)

/-- Function `Subprocess::write(const char *data, size_t len)` on a buffer of `len = data.length`
bytes. -/
def Subprocess.write (h : Subprocess) (data : List Nat) (answers : List Int) :
    Option Int × List Event :=
  Subprocess.write_loop h.stdin_write data answers 0 data.length

/-! ## Process launcher: descriptor placement in the forked child -/

/-- Descriptor table of a process: entry `i` is the open file description descriptor `i` refers
to, `none` when `i` is free.  Descriptors beyond the list are free. -/
abbrev FdTable := List (Option Nat)

/-- The file description descriptor `i` refers to. -/
def FdTable.get : FdTable → Nat → Option Nat
  | [], _ => none
  | x :: _, 0 => x
  | _ :: t, i + 1 => FdTable.get t i

/-- The table with descriptor `i` referring to `v`. -/
def FdTable.set : FdTable → Nat → Option Nat → FdTable
  | [], 0, v => [v]
  | [], i + 1, v => none :: FdTable.set [] i v
  | _ :: t, 0, v => v :: t
  | x :: t, i + 1, v => x :: FdTable.set t i v

/-- The lowest free descriptor. -/
def FdTable.lowest_free : FdTable → Nat
  | [] => 0
  | none :: _ => 0
  | some _ :: t => FdTable.lowest_free t + 1

/-- The file description an `int` descriptor refers to; a negative one refers to nothing. -/
def FdTable.lookup (t : FdTable) (fd : Int) : Option Nat :=
  if fd < 0 then none else t.get fd.toNat

/-- The call `dup(fd)`: -1 when `fd` is not open; else the lowest free descriptor, which now
refers to the same file description. -/
def sys_dup (t : FdTable) (fd : Int) : Int × FdTable :=
  match t.lookup fd with
  | none => (-1, t)
  | some r => ((t.lowest_free : Int), t.set t.lowest_free (some r))

/-- The call `dup2(oldfd, newfd)`: -1 when `oldfd` is not open or `newfd` is negative; nothing
happens when both are equal; else `newfd` is silently closed and refers to what `oldfd` does. -/
def sys_dup2 (t : FdTable) (oldfd newfd : Int) : Int × FdTable :=
  match t.lookup oldfd with
  | none => (-1, t)
  | some r =>
    if newfd < 0 then (-1, t)
    else if oldfd = newfd then (newfd, t)
    else (newfd, t.set newfd.toNat (some r))

/-- Function `child_move_fd_above_2(int &fd)`: when `fd <= 2` it is duplicated, the function is
applied to the duplicate, and `fd` becomes the outcome; a failed `dup` returns with `fd`
unchanged.  The first argument bounds the depth of the recursion: `none` when it is used up. -/
def child_move_fd_above_2 : Nat → FdTable → Int → Option (FdTable × Int)
  | 0, _, _ => none
  | fuel + 1, t, fd =>
    if fd ≤ 2 then
      let d := sys_dup t fd
      if -1 = d.1 then some (d.2, fd)
      else
        match child_move_fd_above_2 fuel d.2 d.1 with
        | none => none
        | some r => some (r.1, r.2)
    else some (t, fd)

/-- Lines 76-78 of `Subprocess::child_setup_pipes`: the three child-side pipe ends are moved
above 2, in the order stdin-read, stdout-write, stderr-write. -/
def Subprocess.child_relocate (fuel : Nat) (t : FdTable) (h : Subprocess) :
    Option (FdTable × Subprocess) :=
  match child_move_fd_above_2 fuel t h.stdin_read with
  | none => none
  | some a =>
    match child_move_fd_above_2 fuel a.1 h.stdout_write with
    | none => none
    | some b =>
      match child_move_fd_above_2 fuel b.1 h.stderr_write with
      | none => none
      | some c =>
        some (c.1, { h with stdin_read := a.2, stdout_write := b.2, stderr_write := c.2 })

/-- Function `Subprocess::child_setup_pipes`: the relocation, then `dup2` of the stdin-read end
onto 0, of the stdout-write end onto 1 and of the stderr-write end onto 2. -/
def Subprocess.child_setup_pipes (fuel : Nat) (t : FdTable) (h : Subprocess) :
    Option (FdTable × Subprocess) :=
  match h.child_relocate fuel t with
  | none => none
  | some r =>
    let t0 := (sys_dup2 r.1 r.2.stdin_read 0).2
    let t1 := (sys_dup2 t0 r.2.stdout_write 1).2
    let t2 := (sys_dup2 t1 r.2.stderr_write 2).2
    some (t2, r.2)

/-! ## Concrete environments used in the examples -/

/-- A `poll` answer with no readiness at all. -/
def quiet : PollAnswer :=
  { fail := false, listener := 0, child_stdout := 0, child_stderr := 0, client := 0, fds4 := 0 }

/-- A launch in which the three pipes are (5,6), (7,8), (9,10), `fork` returns pid 100, and the
command is executed. -/
def launch_ok : LaunchEnv :=
  { pipe_stdin := some (5, 6), pipe_stdout := some (7, 8), pipe_stderr := some (9, 10),
    fork := some 99, exec_ok := true }

/-- The same launch for a command whose executable does not exist: pipes and `fork` succeed,
`execvpe` fails in the child. -/
def launch_exec_fails : LaunchEnv :=
  { launch_ok with exec_ok := false }

/-- An iteration without readiness (a `poll` timeout). -/
def env_idle : IterEnv :=
  { poll := quiet, accept := -1, launch := launch_ok,
    read_stdout := ReadAnswer.error, read_stderr := ReadAnswer.error,
    read_client := ReadAnswer.error, write_client := -1, write_child := -1 }

/-- A connection is pending on the listener and `accept` returns `sock`. -/
def env_connect (sock : Int) : IterEnv :=
  { env_idle with poll := { quiet with listener := POLLIN }, accept := sock }

/-- The client socket reports a hang up. -/
def env_client_hup : IterEnv :=
  { env_idle with poll := { quiet with client := POLLHUP } }

/-- The client sends `bytes` and the `write` to the child answers `w`. -/
def env_client_data (bytes : List Nat) (w : Int) : IterEnv :=
  { env_idle with
    poll := { quiet with client := POLLIN }, read_client := ReadAnswer.data bytes,
    write_child := w }

/-- The child prints `bytes` on its stdout and the `write` to the client answers `w`. -/
def env_child_data (bytes : List Nat) (w : Int) : IterEnv :=
  { env_idle with
    poll := { quiet with child_stdout := POLLIN }, read_stdout := ReadAnswer.data bytes,
    write_client := w }

/-- The stdout of the child reports a hang up. -/
def env_child_hup : IterEnv :=
  { env_idle with poll := { quiet with child_stdout := POLLHUP } }

/-- A connection is pending and the stdout of the child reports a hang up in the same `poll`;
`accept` answers `sock`. -/
def env_connect_and_child_hup (sock : Int) : IterEnv :=
  { env_idle with poll := { quiet with listener := POLLIN, child_stdout := POLLHUP }, accept := sock }

/-- A connection is pending and the child has printed `bytes` in the same `poll`; `accept`
answers `sock` and the `write` to the client answers `w`. -/
def env_connect_and_child_data (sock : Int) (bytes : List Nat) (w : Int) : IterEnv :=
  { env_idle with
    poll := { quiet with listener := POLLIN, child_stdout := POLLIN }, accept := sock,
    read_stdout := ReadAnswer.data bytes, write_client := w }

/-- A connection is pending and `accept` returns `sock`, for a command whose executable does
not exist. -/
def env_connect_exec_fails (sock : Int) : IterEnv :=
  { env_connect sock with launch := launch_exec_fails }

/-- A connection is pending and `accept` returns `sock`, while `fork` fails. -/
def env_connect_fork_fails (sock : Int) : IterEnv :=
  { env_connect sock with launch := { launch_ok with fork := none } }

/-- The call `poll` fails. -/
def env_poll_fails : IterEnv :=
  { env_idle with poll := { quiet with fail := true } }

/-- The handle `launch` returns under `launch_ok`. -/
def handle_ok : Subprocess :=
  { pid := 100, stdin_read := -1, stdin_write := 6, stdout_read := 7, stdout_write := -1,
    stderr_read := 9, stderr_write := -1 }

/-- The content of the unassigned entry `fds[4]` in the examples: a negative descriptor. -/
def junk0 : pollfd := { fd := -1, events := 0, revents := 0 }

/-! ## Predicates used in the statements -/

/-- What the invariant of the loop allows in a trace: an `accept` only when it was made while
no client was attached, and no `waitpid` at all; other events are not constrained. -/
def Event.accept_without_client : Event → Prop
  | Event.sys_accept _ c _ => c = -1
  | Event.sys_waitpid _ => False
  | _ => True

/-- Whether the event is neither an `accept` nor a `waitpid`. -/
def Event.is_plain : Event → Bool
  | Event.sys_accept _ _ _ => false
  | Event.sys_waitpid _ => false
  | _ => true

/-- Invariant of the loop: a monitored listener means no client, every `accept` so far was
made with no client attached, and no `waitpid` was made. -/
def single_tenant (s : State) : Prop :=
  (0 ≤ s.listener.fd → s.client.fd = -1) ∧ ∀ ev ∈ s.trace, ev.accept_without_client

/-- Whether the event is a `close`. -/
def Event.is_close : Event → Bool
  | Event.sys_close _ => true
  | _ => false

/-- Whether the event belongs to a launch: the entry, `pipe2`, `fork`, or a `close`. -/
def Event.is_launch_step : Event → Bool
  | Event.launch_called => true
  | Event.sys_pipe2 _ => true
  | Event.sys_fork _ => true
  | Event.sys_close _ => true
  | _ => false

/-- Whether the event is a `poll`, a `read`, a `close` or the disconnect log line. -/
def Event.is_quiet : Event → Bool
  | Event.sys_poll _ _ => true
  | Event.sys_read _ _ _ => true
  | Event.sys_close _ => true
  | Event.log_disconnect_client => true
  | _ => false

/-- No client is attached and nothing is reported on the client entry. -/
def no_client_event (s : State) : Prop :=
  s.client.fd < 0 ∧ s.client.revents = 0

/-- The trace of `s` is `t0` followed by events that all satisfy `R`. -/
def extends_by (R : Event → Prop) (t0 : List Event) (s : State) : Prop :=
  ∃ evs, s.trace = t0 ++ evs ∧ ∀ ev ∈ evs, R ev

/-- The trace has grown from `t0` by events satisfying `R`, where either every `write` satisfies
`R` or no client is attached and nothing is reported on the client entry. -/
def grows_by (R : Event → Prop) (t0 : List Event) (s : State) : Prop :=
  extends_by R t0 s ∧ ((∀ f b n, R (Event.sys_write f b n)) ∨ no_client_event s)

/-- The state after one client connected on listening socket 3: client socket 4 attached, child
with pid 100 alive. -/
def state_serving : State :=
  (handle_requests 3 1 junk0 [env_connect 4]).1

/-- The state after that client hung up: no client, the child still alive, listener monitored. -/
def state_child_only : State :=
  (handle_requests 3 1 junk0 [env_connect 4, env_client_hup]).1

/-- Number of free descriptors among 0, 1, 2. -/
def FdTable.free_low (t : FdTable) : Nat :=
  (if t.get 0 = none then 1 else 0) + (if t.get 1 = none then 1 else 0)
    + (if t.get 2 = none then 1 else 0)

/-- A `poll` in the trace was handed `NFDS = 5` entries, the fifth being an entry with the
descriptor and the interest mask of `junk`; other events are not constrained. -/
def Event.poll_of_five (junk : pollfd) : Event → Prop
  | Event.sys_poll fds nfds =>
    nfds = 5 ∧ fds.length = 5 ∧ ∃ p, fds.get? 4 = some p ∧ p.fd = junk.fd ∧ p.events = junk.events
  | _ => True

/-- Whether the event is a `poll`. -/
def Event.is_poll : Event → Bool
  | Event.sys_poll _ _ => true
  | _ => false

/-- The entry `fds[4]` still holds the descriptor and the interest mask it had before the loop,
and every `poll` so far was handed five entries, that one included. -/
def five_slots (junk : pollfd) (s : State) : Prop :=
  s.fds4.fd = junk.fd ∧ s.fds4.events = junk.events ∧ ∀ ev ∈ s.trace, ev.poll_of_five junk

/-- A content of the unassigned entry `fds[4]` that happens to name descriptor 0 with interest
in input. -/
def junk_stdin : pollfd := { fd := 0, events := POLLIN, revents := 0 }

/-- Nothing is ready on the four assigned entries; the fifth entry is reported readable. -/
def env_fifth_ready : IterEnv :=
  { env_idle with poll := { quiet with fds4 := POLLIN } }

/-! # Theorems -/

/-! ## Events added by the helpers -/

theorem close_pipe_events (fd : Int) : ∀ ev ∈ (close_pipe fd).2, ev = Event.sys_close fd := by
  intro ev hev
  unfold close_pipe at hev
  split at hev <;> simpa using hev

theorem close_if_open_events (fd : Int) :
    ∀ ev ∈ (close_if_open fd).2, ev = Event.sys_close fd := by
  intro ev hev
  unfold close_if_open at hev
  split at hev
  · exact close_pipe_events fd ev hev
  · simp at hev

theorem destroy_events (h : Subprocess) : ∀ ev ∈ h.destroy, ev.is_close = true := by
  intro ev hev
  simp only [Subprocess.destroy, Subprocess.close_pipes, List.mem_append] at hev
  rcases hev with ((((hev | hev) | hev) | hev) | hev) | hev <;>
    (rw [close_if_open_events _ ev hev]; rfl)

theorem parent_close_pipes_events (h : Subprocess) :
    ∀ ev ∈ (h.parent_close_pipes).2, ev.is_close = true := by
  intro ev hev
  simp only [Subprocess.parent_close_pipes, List.mem_append] at hev
  rcases hev with (hev | hev) | hev <;>
    (rw [close_pipe_events _ ev hev]; rfl)

theorem close_is_launch_step (ev : Event) (h : ev.is_close = true) :
    ev.is_launch_step = true := by
  cases ev <;> simp_all [Event.is_close, Event.is_launch_step]

theorem init_pipes_events (h : Subprocess) (env : LaunchEnv) :
    ∀ ev ∈ (h.init_pipes env).2.2, ev.is_launch_step = true := by
  intro ev hev
  unfold Subprocess.init_pipes at hev
  split at hev
  · simp at hev; subst hev; rfl
  · split at hev
    · simp at hev; rcases hev with hev | hev <;> (subst hev; rfl)
    · split at hev
      · simp at hev; rcases hev with hev | hev | hev <;> (subst hev; rfl)
      · simp at hev; rcases hev with hev | hev | hev <;> (subst hev; rfl)

theorem launch_events (env : LaunchEnv) :
    ∀ ev ∈ (Subprocess.launch env).events, ev.is_launch_step = true := by
  intro ev hev
  by_cases h0 : (Subprocess.new.init_pipes env).1 ≠ 0
  · simp only [Subprocess.launch, if_pos h0, List.mem_append, List.mem_singleton] at hev
    rcases hev with (hev | hev) | hev
    · subst hev; rfl
    · exact init_pipes_events _ _ ev hev
    · exact close_is_launch_step ev (destroy_events _ ev hev)
  · cases hf : env.fork with
    | none =>
      simp only [Subprocess.launch, if_neg h0, hf, List.mem_append, List.mem_singleton] at hev
      rcases hev with ((hev | hev) | hev) | hev
      · subst hev; rfl
      · exact init_pipes_events _ _ ev hev
      · subst hev; rfl
      · exact close_is_launch_step ev (destroy_events _ ev hev)
    | some k =>
      simp only [Subprocess.launch, if_neg h0, hf, List.mem_append, List.mem_singleton] at hev
      rcases hev with ((hev | hev) | hev) | hev
      · subst hev; rfl
      · exact init_pipes_events _ _ ev hev
      · subst hev; rfl
      · exact close_is_launch_step ev (parent_close_pipes_events _ ev hev)

theorem launch_step_accept (ev : Event) (h : ev.is_launch_step = true) :
    ev.accept_without_client := by
  cases ev <;> simp_all [Event.is_launch_step, Event.accept_without_client]

/-! ## Single tenancy -/

theorem cleanup_child_trace (s : State) :
    ∃ evs, (cleanup_child s).trace = s.trace ++ evs ∧ ∀ ev ∈ evs, ev.is_close = true := by
  unfold cleanup_child
  cases h : s.subp with
  | none => exact ⟨[], by simp, by simp⟩
  | some hd => exact ⟨hd.destroy, by simp, destroy_events hd⟩

theorem single_tenant_cleanup_child (s : State) (h : single_tenant s) :
    single_tenant (cleanup_child s) := by
  obtain ⟨evs, ht, hc⟩ := cleanup_child_trace s
  refine ⟨?_, ?_⟩
  · intro hl; exact h.1 hl
  · intro ev hev
    rw [ht, List.mem_append] at hev
    rcases hev with hev | hev
    · exact h.2 ev hev
    · exact launch_step_accept ev (close_is_launch_step ev (hc ev hev))

theorem single_tenant_detach (s : State) (b : Bool) (v : Int)
    (h : ∀ ev ∈ s.trace, ev.accept_without_client) :
    single_tenant ((cleanup_client s b).set_listener_fd v) := by
  refine ⟨?_, ?_⟩
  · intro _; simp [cleanup_client, State.set_listener_fd]
  · intro ev hev
    simp only [cleanup_client, State.set_listener_fd, List.mem_append] at hev
    rcases hev with hev | hev
    · exact h ev hev
    · split at hev
      · cases b <;> simp at hev
        · subst hev; trivial
        · rcases hev with hev | hev <;> (subst hev; trivial)
      · simp at hev

theorem poll_revents_fd (p : pollfd) (r : Nat) : (poll_revents p r).fd = p.fd := rfl

theorem poll_revents_has_in (p : pollfd) (r : Nat) (h : has_in (poll_revents p r) = true) :
    0 ≤ p.fd := by
  by_contra hneg
  have hlt : p.fd < 0 := by omega
  simp [has_in, poll_revents, hlt] at h

theorem poll_revents_has_hup_err (p : pollfd) (r : Nat)
    (h : has_hup_err (poll_revents p r) = true) : 0 ≤ p.fd := by
  by_contra hneg
  have hlt : p.fd < 0 := by omega
  simp [has_hup_err, poll_revents, hlt] at h

/-- The state `poll` leaves when it does not fail. -/
theorem sys_poll_ok (a : PollAnswer) (s : State) (h : a.fail = false) :
    (sys_poll a s).2 =
      { s with
        listener := poll_revents s.listener a.listener,
        child_stdout := poll_revents s.child_stdout a.child_stdout,
        child_stderr := poll_revents s.child_stderr a.child_stderr,
        client := poll_revents s.client a.client,
        fds4 := poll_revents s.fds4 a.fds4,
        trace := s.trace ++ [Event.sys_poll (s.fds.take NFDS) NFDS] } := by
  simp [sys_poll, h, State.log]

theorem sys_poll_fail (a : PollAnswer) (s : State) (h : a.fail = true) :
    sys_poll a s = (-1, s.log [Event.sys_poll (s.fds.take NFDS) NFDS]) := by
  simp [sys_poll, h]

theorem sys_poll_ok_ne (a : PollAnswer) (s : State) (h : a.fail = false) :
    (sys_poll a s).1 ≠ -1 := by
  simp only [sys_poll, h]
  simp only [Bool.false_eq_true, if_false]
  omega

theorem stage_poll_state (e : IterEnv) (s : State) :
    (stage_poll e s).state = (sys_poll e.poll s).2 := by
  simp only [stage_poll]
  split
  · rfl
  · split <;> rfl

theorem stage_poll_pass (e : IterEnv) (s s1 : State) (hp : stage_poll e s = Flow.pass s1) :
    e.poll.fail = false ∧ s1 = (sys_poll e.poll s).2 := by
  have hs := stage_poll_state e s
  rw [hp] at hs
  refine ⟨?_, hs⟩
  cases hf : e.poll.fail with
  | false => rfl
  | true =>
    unfold stage_poll at hp
    rw [sys_poll_fail _ _ hf] at hp
    simp at hp

theorem single_tenant_sys_poll (a : PollAnswer) (s : State) (h : single_tenant s) :
    single_tenant (sys_poll a s).2 := by
  cases hf : a.fail with
  | true =>
    rw [sys_poll_fail _ _ hf]
    refine ⟨h.1, ?_⟩
    intro ev hev
    simp only [State.log, List.mem_append, List.mem_singleton] at hev
    rcases hev with hev | hev
    · exact h.2 ev hev
    · subst hev; trivial
  | false =>
    rw [sys_poll_ok _ _ hf]
    refine ⟨h.1, ?_⟩
    intro ev hev
    simp only [List.mem_append, List.mem_singleton] at hev
    rcases hev with hev | hev
    · exact h.2 ev hev
    · subst hev; trivial

theorem single_tenant_stage_poll (e : IterEnv) (s : State) (h : single_tenant s) :
    single_tenant (stage_poll e s).state := by
  rw [stage_poll_state]; exact single_tenant_sys_poll _ _ h

theorem stage_poll_pass_listener (e : IterEnv) (s s1 : State)
    (hp : stage_poll e s = Flow.pass s1) (hin : has_in s1.listener = true) :
    0 ≤ s1.listener.fd := by
  obtain ⟨hf, hs⟩ := stage_poll_pass e s s1 hp
  rw [sys_poll_ok _ _ hf] at hs
  subst hs
  exact poll_revents_has_in _ _ hin

theorem single_tenant_log (s : State) (evs : List Event) (h : single_tenant s)
    (hevs : ∀ ev ∈ evs, ev.accept_without_client) : single_tenant (s.log evs) := by
  refine ⟨h.1, ?_⟩
  intro ev hev
  simp only [State.log, List.mem_append] at hev
  rcases hev with hev | hev
  · exact h.2 ev hev
  · exact hevs ev hev

theorem start_tunnel_process_frame (argc : Int) (env : LaunchEnv) (s : State) :
    (start_tunnel_process argc env s).2.listener = s.listener ∧
    (start_tunnel_process argc env s).2.client = s.client ∧
    (start_tunnel_process argc env s).2.fds4 = s.fds4 ∧
    (start_tunnel_process argc env s).2.subp = s.subp ∧
    ∃ evs, (start_tunnel_process argc env s).2.trace = s.trace ++ evs ∧
      ∀ ev ∈ evs, ev.is_launch_step = true := by
  by_cases ha : argc ≤ 0
  · have e1 : start_tunnel_process argc env s = (none, s) := by
      simp only [start_tunnel_process, if_pos ha]
    rw [e1]
    exact ⟨rfl, rfl, rfl, rfl, [], by simp, by simp⟩
  · cases hh : (Subprocess.launch env).handle with
    | none =>
      have e1 : start_tunnel_process argc env s = (none, s.log (Subprocess.launch env).events) := by
        simp only [start_tunnel_process, if_neg ha, hh]
      rw [e1]
      exact ⟨rfl, rfl, rfl, rfl, _, rfl, launch_events env⟩
    | some hd =>
      have e1 : start_tunnel_process argc env s = (some hd, { s with
          child_stdout := { s.child_stdout with fd := hd.get_fd_stdout },
          child_stderr := { s.child_stderr with fd := hd.get_fd_stderr },
          trace := s.trace ++ (Subprocess.launch env).events }) := by
        simp only [start_tunnel_process, if_neg ha, hh]
      rw [e1]
      exact ⟨rfl, rfl, rfl, rfl, _, rfl, launch_events env⟩

theorem single_tenant_listener (argc : Int) (e : IterEnv) (s : State) (h : single_tenant s)
    (harmed : has_in s.listener = true → 0 ≤ s.listener.fd) :
    single_tenant (stage_listener argc e s).state := by
  by_cases hin : has_in s.listener = true
  · have hc : s.client.fd = -1 := h.1 (harmed hin)
    have h1 : single_tenant
        (s.log [Event.sys_accept s.listener.fd s.client.fd (sys_accept s.listener.fd e.accept)]) := by
      apply single_tenant_log _ _ h
      intro ev hev
      simp only [List.mem_singleton] at hev
      subst hev
      exact hc
    have h2 : single_tenant (((s.log [Event.sys_accept s.listener.fd s.client.fd
          (sys_accept s.listener.fd e.accept)]).set_listener_fd (-1)).set_client_fd
          (sys_accept s.listener.fd e.accept)) := by
      refine ⟨?_, h1.2⟩
      intro hl
      simp [State.set_listener_fd, State.set_client_fd, State.log] at hl
    by_cases hacc : sys_accept s.listener.fd e.accept < 0
    · simp only [stage_listener, hin, if_true, if_pos hacc]
      exact h1
    · cases hsub : s.subp with
      | some hd =>
        simp only [stage_listener, hin, if_true, if_neg hacc, State.set_listener_fd,
          State.set_client_fd, State.log, hsub]
        simpa only [State.set_listener_fd, State.set_client_fd, State.log] using h2
      | none =>
        obtain ⟨fl, fc, -, -, evs, ft, fe⟩ := start_tunnel_process_frame argc e.launch
          (((s.log [Event.sys_accept s.listener.fd s.client.fd
            (sys_accept s.listener.fd e.accept)]).set_listener_fd (-1)).set_client_fd
            (sys_accept s.listener.fd e.accept))
        have h3 : single_tenant (start_tunnel_process argc e.launch
            (((s.log [Event.sys_accept s.listener.fd s.client.fd
            (sys_accept s.listener.fd e.accept)]).set_listener_fd (-1)).set_client_fd
            (sys_accept s.listener.fd e.accept))).2 := by
          refine ⟨?_, ?_⟩
          · intro hl
            rw [fl] at hl
            simp [State.set_listener_fd, State.set_client_fd, State.log] at hl
          · intro ev hev
            rw [ft, List.mem_append] at hev
            rcases hev with hev | hev
            · exact h2.2 ev hev
            · exact launch_step_accept ev (fe ev hev)
        have hsub2 : (((s.log [Event.sys_accept s.listener.fd s.client.fd
            (sys_accept s.listener.fd e.accept)]).set_listener_fd (-1)).set_client_fd
            (sys_accept s.listener.fd e.accept)).subp = none := hsub
        simp only [stage_listener, hin, if_true, if_neg hacc, hsub2]
        split
        · exact h3
        · exact ⟨h3.1, h3.2⟩
  · simp only [stage_listener, hin]
    exact h

theorem non_accept_ok (ev : Event) (h : ev.is_plain = true) : ev.accept_without_client := by
  cases ev <;> trivial

theorem single_tenant_log_one (s : State) (ev : Event) (h : single_tenant s)
    (hev : ev.is_plain = true) : single_tenant (s.log [ev]) := by
  apply single_tenant_log _ _ h
  intro ev1 h1
  simp only [List.mem_singleton] at h1
  subst h1
  exact non_accept_ok _ hev

theorem single_tenant_teardown (s : State) (b : Bool) (v : Int) (h : single_tenant s) :
    single_tenant ((cleanup_client (cleanup_child s) b).set_listener_fd v) :=
  single_tenant_detach _ _ _ (single_tenant_cleanup_child s h).2

theorem single_tenant_stdout_hup (ls : Int) (s : State) (h : single_tenant s) :
    single_tenant (stage_stdout_hup ls s).state := by
  simp only [stage_stdout_hup]
  split
  · exact single_tenant_teardown _ _ _ h
  · exact h

theorem single_tenant_drop_client (s : State) (h : single_tenant s) :
    single_tenant (s.set_client_fd (-1)) :=
  ⟨fun _ => rfl, h.2⟩

theorem single_tenant_stdout_data (ls : Int) (e : IterEnv) (s : State) (h : single_tenant s) :
    single_tenant (stage_stdout_data ls e s).state := by
  simp only [stage_stdout_data]
  split
  · have h1 := single_tenant_log_one s (Event.sys_read s.child_stdout.fd
      (sys_read s.child_stdout.fd BUF_SIZ e.read_stdout).1
      (sys_read s.child_stdout.fd BUF_SIZ e.read_stdout).2) h rfl
    split
    · exact single_tenant_teardown _ _ _ h1
    · split
      · exact single_tenant_teardown _ _ _ h1
      · split
        · split
          · refine single_tenant_drop_client _ (single_tenant_log_one _ _
              (single_tenant_log_one _ _ h1 rfl) rfl)
          · refine single_tenant_log_one _ _ h1 rfl
        · exact h1
  · exact h

theorem single_tenant_stderr (ls : Int) (e : IterEnv) (s : State) (h : single_tenant s) :
    single_tenant (stage_stderr ls e s).state := by
  simp only [stage_stderr]
  split
  · have h1 := single_tenant_log_one s (Event.sys_read s.child_stderr.fd
      (sys_read s.child_stderr.fd (BUF_SIZ - 1) e.read_stderr).1
      (sys_read s.child_stderr.fd (BUF_SIZ - 1) e.read_stderr).2) h rfl
    split
    · exact single_tenant_teardown _ _ _ h1
    · split
      · exact single_tenant_teardown _ _ _ h1
      · exact h1
  · exact h

theorem single_tenant_client_hup (ls : Int) (s : State) (h : single_tenant s) :
    single_tenant (stage_client_hup ls s).state := by
  simp only [stage_client_hup]
  split
  · exact single_tenant_detach _ _ _ h.2
  · exact h

theorem single_tenant_teardown_swapped (s : State) (b : Bool) (v : Int) (h : single_tenant s) :
    single_tenant (cleanup_client ((cleanup_child s).set_listener_fd v) b) := by
  have h1 := single_tenant_detach (cleanup_child s) b v (single_tenant_cleanup_child s h).2
  exact ⟨fun _ => rfl, h1.2⟩

theorem single_tenant_client_data (ls : Int) (e : IterEnv) (s : State) (h : single_tenant s) :
    single_tenant (stage_client_data ls e s).state := by
  simp only [stage_client_data]
  split
  · have h1 := single_tenant_log_one s (Event.sys_read s.client.fd
      (sys_read s.client.fd BUF_SIZ e.read_client).1
      (sys_read s.client.fd BUF_SIZ e.read_client).2) h rfl
    split
    · exact single_tenant_detach _ _ _ h1.2
    · split
      · exact single_tenant_detach _ _ _ h1.2
      · split
        · exact single_tenant_detach _ _ _ h1.2
        · split
          · refine single_tenant_teardown_swapped _ _ _ (single_tenant_log_one _ _ h1 rfl)
          · refine single_tenant_log_one _ _ h1 rfl
  · exact h

/-- Sequencing keeps a property of the carried state that every branch keeps. -/
theorem Flow.andThen_state (P : State → Prop) (f : Flow) (k : State → Flow)
    (hf : P f.state) (hk : ∀ s, f = Flow.pass s → P s → P (k s).state) :
    P (f.andThen k).state := by
  cases f with
  | pass s => exact hk s rfl hf
  | next s => exact hf
  | exit s err => exact hf

theorem single_tenant_iteration (ls argc : Int) (e : IterEnv) (s : State) (h : single_tenant s) :
    single_tenant (iteration ls argc e s).state := by
  unfold iteration
  refine Flow.andThen_state _ _ _ (Flow.andThen_state _ _ _ (Flow.andThen_state _ _ _
    (Flow.andThen_state _ _ _ (Flow.andThen_state _ _ _ (Flow.andThen_state _ _ _
    (single_tenant_stage_poll e s h) ?_) ?_) ?_) ?_) ?_) ?_
  · intro s1 hp h1
    exact single_tenant_listener argc e s1 h1 (stage_poll_pass_listener e s s1 hp)
  · intro s1 _ h1; exact single_tenant_stdout_hup ls s1 h1
  · intro s1 _ h1; exact single_tenant_stdout_data ls e s1 h1
  · intro s1 _ h1; exact single_tenant_stderr ls e s1 h1
  · intro s1 _ h1; exact single_tenant_client_hup ls s1 h1
  · intro s1 _ h1; exact single_tenant_client_data ls e s1 h1

theorem single_tenant_run_loop (ls argc : Int) (envs : List IterEnv) :
    ∀ s, single_tenant s → single_tenant (run_loop ls argc envs s).1 := by
  induction envs with
  | nil => intro s h; exact h
  | cons e es ih =>
    intro s h
    have h1 := single_tenant_iteration ls argc e s h
    unfold run_loop
    cases hit : iteration ls argc e s with
    | pass s1 => rw [hit] at h1; exact ih s1 h1
    | next s1 => rw [hit] at h1; exact ih s1 h1
    | exit s1 err => rw [hit] at h1; exact h1

theorem single_tenant_init (ls : Int) (junk : pollfd) : single_tenant (init_state ls junk) :=
  ⟨fun _ => rfl, by intro ev hev; simp [init_state] at hev⟩

theorem handle_requests_of_none (ls argc : Int) (junk : pollfd) (envs : List IterEnv)
    (h : (run_loop ls argc envs (init_state ls junk)).2 = none) :
    handle_requests ls argc junk envs = ((run_loop ls argc envs (init_state ls junk)).1, none) := by
  simp only [handle_requests, h]

theorem handle_requests_of_some (ls argc : Int) (junk : pollfd) (envs : List IterEnv) (err : Int)
    (h : (run_loop ls argc envs (init_state ls junk)).2 = some err) :
    handle_requests ls argc junk envs =
      (cleanup_client (cleanup_child (run_loop ls argc envs (init_state ls junk)).1) false,
        some err) := by
  simp only [handle_requests, h]

/-- Claim C1.  Single tenancy of `handle_requests`: for every listening socket, every content
of the unassigned table entry and every sequence of answers of the environment, whenever the loop
is about to call `poll` (all answers consumed, no `break`), a monitored listener
(`listener->fd >= 0`) means that no client is attached (`client->fd == -1`); and whatever the
outcome of the run, every `accept` recorded in the trace was called while `client->fd == -1`. -/
theorem handle_requests_single_tenancy (listening_sock child_argc : Int) (junk : pollfd)
    (envs : List IterEnv) :
    (∀ s, handle_requests listening_sock child_argc junk envs = (s, none) →
        0 ≤ s.listener.fd → s.client.fd = -1) ∧
    (∀ lfd c r, Event.sys_accept lfd c r ∈
        (handle_requests listening_sock child_argc junk envs).1.trace → c = -1) := by
  have hrun := single_tenant_run_loop listening_sock child_argc envs
    (init_state listening_sock junk) (single_tenant_init listening_sock junk)
  constructor
  · intro s hs hl
    cases hr : (run_loop listening_sock child_argc envs (init_state listening_sock junk)).2 with
    | none =>
      rw [handle_requests_of_none _ _ _ _ hr] at hs
      have : s = (run_loop listening_sock child_argc envs (init_state listening_sock junk)).1 :=
        (congrArg Prod.fst hs).symm
      subst this
      exact hrun.1 hl
    | some err =>
      rw [handle_requests_of_some _ _ _ _ _ hr] at hs
      cases hs
  · intro lfd c r hmem
    have hfin : single_tenant (handle_requests listening_sock child_argc junk envs).1 := by
      cases hr : (run_loop listening_sock child_argc envs (init_state listening_sock junk)).2 with
      | none =>
        rw [handle_requests_of_none _ _ _ _ hr]
        exact hrun
      | some err =>
        rw [handle_requests_of_some _ _ _ _ _ hr]
        have h1 := single_tenant_teardown _ false 0 hrun
        exact ⟨fun _ => rfl, h1.2⟩
    exact hfin.2 _ hmem

/-- Witness for C1: after a client connected and hung up, the loop is about to poll with the
listener monitored (descriptor 3) and no client attached. -/
theorem handle_requests_single_tenancy_witness :
    (handle_requests 3 1 junk0 [env_connect 4, env_client_hup]).2 = none ∧
    (handle_requests 3 1 junk0 [env_connect 4, env_client_hup]).1.listener.fd = 3 ∧
    (handle_requests 3 1 junk0 [env_connect 4, env_client_hup]).1.client.fd = -1 ∧
    Event.sys_accept 3 (-1) 4 ∈
      (handle_requests 3 1 junk0 [env_connect 4, env_client_hup]).1.trace :=
  ⟨by decide, by decide,
    (handle_requests_single_tenancy 3 1 junk0 [env_connect 4, env_client_hup]).1 _ rfl
      (by decide),
    by decide⟩

/-! ## Byte fidelity -/

/-- Claim C2 (code defect).  A short `write` loses bytes in both directions while client and child
stay attached.  Listening socket 3, client socket 4, child pipes stdin 6 / stdout 7.
Client to child: the client sends the two bytes 104, 105 and `write` on the stdin pipe accepts 1
byte; the loop goes on with the client attached and the child alive, the bytes read from the
client are [104, 105] and the bytes accepted by the stdin pipe are [104].
Child to client: the child prints 111, 107 and `write` on the client socket accepts 1 byte; the
bytes read from the stdout pipe are [111, 107] and the bytes accepted by the client are [111]. -/
theorem handle_requests_short_write_loses_bytes :
    ((handle_requests 3 1 junk0 [env_connect 4, env_client_data [104, 105] 1]).2 = none ∧
      (handle_requests 3 1 junk0 [env_connect 4, env_client_data [104, 105] 1]).1.client.fd = 4 ∧
      (handle_requests 3 1 junk0 [env_connect 4, env_client_data [104, 105] 1]).1.subp
        = some handle_ok ∧
      bytes_read 4
        (handle_requests 3 1 junk0 [env_connect 4, env_client_data [104, 105] 1]).1.trace
        = [104, 105] ∧
      written 6
        (handle_requests 3 1 junk0 [env_connect 4, env_client_data [104, 105] 1]).1.trace
        = [104]) ∧
    ((handle_requests 3 1 junk0 [env_connect 4, env_child_data [111, 107] 1]).2 = none ∧
      (handle_requests 3 1 junk0 [env_connect 4, env_child_data [111, 107] 1]).1.client.fd = 4 ∧
      (handle_requests 3 1 junk0 [env_connect 4, env_child_data [111, 107] 1]).1.subp
        = some handle_ok ∧
      bytes_read 7
        (handle_requests 3 1 junk0 [env_connect 4, env_child_data [111, 107] 1]).1.trace
        = [111, 107] ∧
      written 4
        (handle_requests 3 1 junk0 [env_connect 4, env_child_data [111, 107] 1]).1.trace
        = [111]) := by
  decide

/-! ## Teardown of the child -/

/-- Claim C8 (code defect).  The dispatcher never reaps a child: for every run of
`handle_requests`, the trace holds no `waitpid`.  In the run where a client connects (child
launched with pid 100) and the stdout of the child then hangs up, `cleanup_child` destroys the
child (`subp` is null again, the pipe ends 6, 7, 9 are closed) without a `waitpid`, and so does the
cleanup after the loop when `poll` fails; `Subprocess::shutdown` on the same handle closes the same
pipe ends and then calls `waitpid(100)`. -/
theorem cleanup_child_never_waits :
    (∀ (listening_sock child_argc : Int) (junk : pollfd) (envs : List IterEnv) (pid : Int),
      Event.sys_waitpid pid ∉ (handle_requests listening_sock child_argc junk envs).1.trace) ∧
    ((handle_requests 3 1 junk0 [env_connect 4]).1.subp = some handle_ok ∧
      (handle_requests 3 1 junk0 [env_connect 4, env_child_hup]).1.subp = none ∧
      Event.sys_close 6 ∈ (handle_requests 3 1 junk0 [env_connect 4, env_child_hup]).1.trace ∧
      Event.sys_close 7 ∈ (handle_requests 3 1 junk0 [env_connect 4, env_child_hup]).1.trace ∧
      Event.sys_close 9 ∈ (handle_requests 3 1 junk0 [env_connect 4, env_child_hup]).1.trace ∧
      (handle_requests 3 1 junk0 [env_connect 4, env_child_hup]).1.trace.any Event.is_waitpid
        = false) ∧
    ((handle_requests 3 1 junk0 [env_connect 4, env_poll_fails]).2 = some (-1) ∧
      (handle_requests 3 1 junk0 [env_connect 4, env_poll_fails]).1.subp = none ∧
      (handle_requests 3 1 junk0 [env_connect 4, env_poll_fails]).1.trace.any Event.is_waitpid
        = false) ∧
    (handle_ok.shutdown (WaitAnswer.exited 0)).2 =
      [Event.sys_close 6, Event.sys_close 7, Event.sys_close 9, Event.sys_waitpid 100] := by
  refine ⟨?_, by decide, by decide, by decide⟩
  intro ls argc junk envs pid hmem
  have hrun := single_tenant_run_loop ls argc envs (init_state ls junk) (single_tenant_init ls junk)
  cases hr : (run_loop ls argc envs (init_state ls junk)).2 with
  | none =>
    rw [handle_requests_of_none _ _ _ _ hr] at hmem
    exact hrun.2 _ hmem
  | some err =>
    rw [handle_requests_of_some _ _ _ _ _ hr] at hmem
    exact (single_tenant_teardown _ false 0 hrun).2 _ hmem

/-! ## Re-arming of the listener -/

/-- Claim C9 (code defect).  After a failed `write` of child output to the client the listener is
not monitored again.  Listening socket 3: a client connects (socket 4, child launched), then the
child prints two bytes and `write` on the client socket fails.  The loop goes on and is about to
call `poll` with no client attached (`client->fd == -1`, socket 4 closed) and the listener not
monitored (`listener->fd == -1`); a connection pending in the next iteration is not accepted
(only one `accept` in the trace) and the state stays so. -/
theorem listener_not_rearmed_after_client_write_failure :
    (handle_requests 3 1 junk0 [env_connect 4, env_child_data [111, 107] (-1)]).2 = none ∧
    (handle_requests 3 1 junk0 [env_connect 4, env_child_data [111, 107] (-1)]).1.client.fd
      = -1 ∧
    (handle_requests 3 1 junk0 [env_connect 4, env_child_data [111, 107] (-1)]).1.listener.fd
      = -1 ∧
    Event.sys_close 4 ∈
      (handle_requests 3 1 junk0 [env_connect 4, env_child_data [111, 107] (-1)]).1.trace ∧
    (handle_requests 3 1 junk0
      [env_connect 4, env_child_data [111, 107] (-1), env_connect 5]).2 = none ∧
    (handle_requests 3 1 junk0
      [env_connect 4, env_child_data [111, 107] (-1), env_connect 5]).1.client.fd = -1 ∧
    (handle_requests 3 1 junk0
      [env_connect 4, env_child_data [111, 107] (-1), env_connect 5]).1.listener.fd = -1 ∧
    ((handle_requests 3 1 junk0
      [env_connect 4, env_child_data [111, 107] (-1), env_connect 5]).1.trace.filter
        (fun ev => !ev.is_plain)) = [Event.sys_accept 3 (-1) 4] := by
  decide

/-! ## The `poll` branch -/

theorem has_in_revents_ne (p : pollfd) (h : has_in p = true) : p.revents ≠ 0 := by
  intro h0
  simp [has_in, h0] at h

theorem has_hup_err_revents_ne (p : pollfd) (h : has_hup_err p = true) : p.revents ≠ 0 := by
  intro h0
  simp [has_hup_err, h0] at h

/-- When `poll` does not fail and stores a non-zero `revents` in one of the four assigned
entries, the loop body goes on to the listener branch with the stored readiness. -/
theorem stage_poll_pass_of (e : IterEnv) (s : State) (hf : e.poll.fail = false)
    (hne : (poll_revents s.listener e.poll.listener).revents ≠ 0 ∨
      (poll_revents s.child_stdout e.poll.child_stdout).revents ≠ 0 ∨
      (poll_revents s.child_stderr e.poll.child_stderr).revents ≠ 0 ∨
      (poll_revents s.client e.poll.client).revents ≠ 0) :
    stage_poll e s = Flow.pass (sys_poll e.poll s).2 := by
  have hpos : 0 < (((sys_poll e.poll s).2.fds.take NFDS).filter
      (fun p => p.revents ≠ 0)).length := by
    rw [sys_poll_ok _ _ hf]
    rcases hne with h | h | h | h
    · exact List.length_pos_of_mem (a := poll_revents s.listener e.poll.listener)
        (List.mem_filter.mpr ⟨by simp [State.fds, NFDS], by simpa using h⟩)
    · exact List.length_pos_of_mem (a := poll_revents s.child_stdout e.poll.child_stdout)
        (List.mem_filter.mpr ⟨by simp [State.fds, NFDS], by simpa using h⟩)
    · exact List.length_pos_of_mem (a := poll_revents s.child_stderr e.poll.child_stderr)
        (List.mem_filter.mpr ⟨by simp [State.fds, NFDS], by simpa using h⟩)
    · exact List.length_pos_of_mem (a := poll_revents s.client e.poll.client)
        (List.mem_filter.mpr ⟨by simp [State.fds, NFDS], by simpa using h⟩)
  have hcount : (sys_poll e.poll s).1 =
      ((((sys_poll e.poll s).2.fds.take NFDS).filter (fun p => p.revents ≠ 0)).length : Int) := by
    simp [sys_poll, hf]
  have h1 : (sys_poll e.poll s).1 ≠ -1 := by rw [hcount]; omega
  have h2 : (sys_poll e.poll s).1 ≠ 0 := by rw [hcount]; omega
  simp only [stage_poll, if_neg h1, if_neg h2]

/-- A failing `poll` leaves the loop with -1. -/
theorem stage_poll_exit_of (e : IterEnv) (s : State) (hf : e.poll.fail = true) :
    stage_poll e s = Flow.exit (s.log [Event.sys_poll (s.fds.take NFDS) NFDS]) (-1) := by
  simp only [stage_poll, sys_poll_fail _ _ hf, if_true]

/-! ## The loop -/

theorem run_loop_append (ls argc : Int) (envs more : List IterEnv) :
    ∀ s s1, run_loop ls argc envs s = (s1, none) →
      run_loop ls argc (envs ++ more) s = run_loop ls argc more s1 := by
  induction envs with
  | nil =>
    intro s s1 h
    simp only [run_loop, Prod.mk.injEq, and_true] at h
    subst h
    rfl
  | cons e es ih =>
    intro s s1 h
    simp only [List.cons_append, run_loop]
    simp only [run_loop] at h
    cases hit : iteration ls argc e s with
    | pass s2 => rw [hit] at h; exact ih s2 s1 h
    | next s2 => rw [hit] at h; exact ih s2 s1 h
    | exit s2 err => rw [hit] at h; simp at h

theorem handle_requests_running (ls argc : Int) (junk : pollfd) (envs : List IterEnv) (s : State)
    (h : handle_requests ls argc junk envs = (s, none)) :
    run_loop ls argc envs (init_state ls junk) = (s, none) := by
  cases hr : (run_loop ls argc envs (init_state ls junk)).2 with
  | none =>
    rw [handle_requests_of_none _ _ _ _ hr] at h
    rw [← h, ← hr]
  | some err =>
    rw [handle_requests_of_some _ _ _ _ _ hr] at h
    cases h

/-! ## Spawn failure -/

/-- The parent is returned no handle exactly when one of the three `pipe2` calls or `fork`
fails; what `execvpe` does in the child plays no part. -/
theorem launch_handle_none_iff (env : LaunchEnv) :
    (Subprocess.launch env).handle = none ↔
      env.pipe_stdin = none ∨ env.pipe_stdout = none ∨ env.pipe_stderr = none ∨
        env.fork = none := by
  cases h0 : env.pipe_stdin <;> cases h1 : env.pipe_stdout <;> cases h2 : env.pipe_stderr <;>
    cases h3 : env.fork <;> simp [Subprocess.launch, Subprocess.init_pipes, h0, h1, h2, h3]

theorem start_tunnel_process_none_iff (argc : Int) (env : LaunchEnv) (s : State) :
    (start_tunnel_process argc env s).1 = none ↔
      argc ≤ 0 ∨ (Subprocess.launch env).handle = none := by
  by_cases ha : argc ≤ 0
  · simp [start_tunnel_process, ha]
  · cases hh : (Subprocess.launch env).handle <;> simp [start_tunnel_process, ha, hh]

theorem sys_accept_ok (fd a : Int) (hfd : 0 ≤ fd) (ha : 0 ≤ a) : sys_accept fd a = a := by
  have h1 : ¬ fd < 0 := by omega
  have h2 : ¬ a < 0 := by omega
  simp only [sys_accept, if_neg h1, if_neg h2]

/-- The listener branch leaves the loop with -1 when a connection is accepted, there is no
child, and `start_tunnel_process` returns no handle. -/
theorem stage_listener_exit (argc : Int) (e : IterEnv) (s : State)
    (hin : has_in s.listener = true) (hfd : 0 ≤ s.listener.fd) (hacc : 0 ≤ e.accept)
    (hsub : s.subp = none)
    (hfail : argc ≤ 0 ∨ (Subprocess.launch e.launch).handle = none) :
    ∃ s1, stage_listener argc e s = Flow.exit s1 (-1) ∧ s1.subp = none := by
  have hnn : ¬ sys_accept s.listener.fd e.accept < 0 := by
    rw [sys_accept_ok _ _ hfd hacc]; omega
  have hsub2 : (((s.log [Event.sys_accept s.listener.fd s.client.fd
      (sys_accept s.listener.fd e.accept)]).set_listener_fd (-1)).set_client_fd
      (sys_accept s.listener.fd e.accept)).subp = none := hsub
  have hnone := (start_tunnel_process_none_iff argc e.launch
    (((s.log [Event.sys_accept s.listener.fd s.client.fd
      (sys_accept s.listener.fd e.accept)]).set_listener_fd (-1)).set_client_fd
      (sys_accept s.listener.fd e.accept))).mpr hfail
  obtain ⟨-, -, -, fs, -⟩ := start_tunnel_process_frame argc e.launch
    (((s.log [Event.sys_accept s.listener.fd s.client.fd
      (sys_accept s.listener.fd e.accept)]).set_listener_fd (-1)).set_client_fd
      (sys_accept s.listener.fd e.accept))
  refine ⟨_, ?_, fs.trans hsub2⟩
  simp only [stage_listener, hin, if_true, if_neg hnn, hsub2, hnone]

/-- Claim C3 (amended).  Spawn-failure fatality for a launch that returns no handle.  Let the
loop be about to call `poll` with no child (`subp` null), and let the next iteration accept a
connection: `poll` does not fail and reports the listener readable, `accept` returns a socket.
When the command has no token (`argc <= 0`), or one of the three `pipe2` calls fails, or `fork`
fails, `handle_requests` leaves its loop in that iteration and returns -1, whatever the environment
would answer afterwards; on return there is no child and no client. -/
theorem spawn_failure_fatal (listening_sock child_argc : Int) (junk : pollfd)
    (envs rest : List IterEnv) (e : IterEnv) (s : State)
    (hrun : handle_requests listening_sock child_argc junk envs = (s, none))
    (hchild : s.subp = none)
    (hpoll : e.poll.fail = false)
    (hin : has_in (poll_revents s.listener e.poll.listener) = true)
    (hacc : 0 ≤ e.accept)
    (hfail : child_argc ≤ 0 ∨ e.launch.pipe_stdin = none ∨ e.launch.pipe_stdout = none ∨
      e.launch.pipe_stderr = none ∨ e.launch.fork = none) :
    (handle_requests listening_sock child_argc junk (envs ++ e :: rest)).2 = some (-1) ∧
    (handle_requests listening_sock child_argc junk (envs ++ e :: rest)).1.subp = none ∧
    (handle_requests listening_sock child_argc junk (envs ++ e :: rest)).1.client.fd = -1 := by
  have hr := handle_requests_running _ _ _ _ _ hrun
  have hp := stage_poll_pass_of e s hpoll (Or.inl (has_in_revents_ne _ hin))
  have hfd : 0 ≤ s.listener.fd := poll_revents_has_in _ _ hin
  have hfail2 : child_argc ≤ 0 ∨ (Subprocess.launch e.launch).handle = none := by
    rcases hfail with h | h
    · exact Or.inl h
    · exact Or.inr ((launch_handle_none_iff e.launch).mpr h)
  obtain ⟨s1, hl, -⟩ := stage_listener_exit child_argc e (sys_poll e.poll s).2
    (by rw [sys_poll_ok _ _ hpoll]; exact hin)
    (by rw [sys_poll_ok _ _ hpoll]; exact hfd) hacc
    (by rw [sys_poll_ok _ _ hpoll]; exact hchild) hfail2
  have hit : iteration listening_sock child_argc e s = Flow.exit s1 (-1) := by
    simp only [iteration, hp, Flow.andThen, hl]
  have hloop : run_loop listening_sock child_argc (envs ++ e :: rest)
      (init_state listening_sock junk) = (s1, some (-1)) := by
    rw [run_loop_append _ _ _ _ _ _ hr]
    simp only [run_loop, hit]
  have hfin := handle_requests_of_some listening_sock child_argc junk (envs ++ e :: rest) (-1)
    (by rw [hloop])
  rw [hfin, hloop]
  exact ⟨rfl, rfl, rfl⟩

/-- Witness for C3: the first connection arrives while `fork` fails. -/
theorem spawn_failure_fatal_witness :
    (handle_requests 3 1 junk0 ([] ++ env_connect_fork_fails 4 :: [env_idle])).2 = some (-1) ∧
    (handle_requests 3 1 junk0 ([] ++ env_connect_fork_fails 4 :: [env_idle])).1.subp = none ∧
    (handle_requests 3 1 junk0 ([] ++ env_connect_fork_fails 4 :: [env_idle])).1.client.fd
      = -1 :=
  spawn_failure_fatal 3 1 junk0 [] [env_idle] (env_connect_fork_fails 4) (init_state 3 junk0)
    rfl rfl rfl (by decide) (by decide) (by decide)

/-- Claim C3 (counterexample).  A command whose executable does not exist: the three pipes and
`fork` succeed and `execvpe` fails, so the forked child exits with status 72, and the parent is
returned a handle.  On the first accepted connection `handle_requests` does not leave its loop: it
goes on with the client attached; when the stdout of the dead child then hangs up, the child and
the client are cleaned up and the loop still goes on, accepting the next connection. -/
theorem exec_failure_not_fatal :
    (Subprocess.launch launch_exec_fails).child = some (ChildFate.exited 72) ∧
    (Subprocess.launch launch_exec_fails).handle = some handle_ok ∧
    (handle_requests 3 1 junk0 [env_connect_exec_fails 4]).2 = none ∧
    (handle_requests 3 1 junk0 [env_connect_exec_fails 4]).1.client.fd = 4 ∧
    (handle_requests 3 1 junk0
      [env_connect_exec_fails 4, env_child_hup, env_connect_exec_fails 5]).2 = none ∧
    (handle_requests 3 1 junk0
      [env_connect_exec_fails 4, env_child_hup, env_connect_exec_fails 5]).1.client.fd = 5 := by
  decide

/-! ## Child-death cascade -/

/-- What the teardown of child and client leaves: no child, both child slots and the client
slot at -1, the listener slot at `v`, and the socket of an attached client closed. -/
theorem teardown_spec (s : State) (b : Bool) (v : Int) :
    ((cleanup_client (cleanup_child s) b).set_listener_fd v).subp = none ∧
    ((cleanup_client (cleanup_child s) b).set_listener_fd v).child_stdout.fd = -1 ∧
    ((cleanup_client (cleanup_child s) b).set_listener_fd v).child_stderr.fd = -1 ∧
    ((cleanup_client (cleanup_child s) b).set_listener_fd v).client.fd = -1 ∧
    ((cleanup_client (cleanup_child s) b).set_listener_fd v).listener.fd = v ∧
    (0 ≤ s.client.fd → ∃ evs,
      ((cleanup_client (cleanup_child s) b).set_listener_fd v).trace = s.trace ++ evs ∧
      Event.sys_close s.client.fd ∈ evs) := by
  refine ⟨rfl, rfl, rfl, rfl, rfl, ?_⟩
  intro hc
  obtain ⟨evs, ht, -⟩ := cleanup_child_trace s
  have hc2 : 0 ≤ (cleanup_child s).client.fd := hc
  refine ⟨evs ++ ((if b = true then [Event.log_disconnect_client] else [])
    ++ [Event.sys_close s.client.fd]), ?_, by simp⟩
  show (cleanup_client (cleanup_child s) b).trace = _
  simp only [cleanup_client, if_pos hc2, ht, List.append_assoc]
  rfl

/-- Claim C4 (amended).  Child-death cascade for an iteration that gets past the listener
branch.  Let `poll` succeed with some readiness (state `s0`) and let the listener branch fall
through (no failed `accept`, no failed launch; state `s1`, possibly with a client accepted just
now).  When the stdout of the child reports POLLHUP or POLLERR, or it reports POLLIN and the
`read` returns 0 or a negative value, the iteration ends by `continue` in a state with no child,
the child-stdout and child-stderr slots at -1, the client slot at -1, the listener slot at
`listening_sock`, and, when a client was attached, its socket closed in this iteration. -/
theorem child_death_cascade (listening_sock child_argc : Int) (e : IterEnv) (s s0 s1 : State)
    (hp : stage_poll e s = Flow.pass s0)
    (hl : stage_listener child_argc e s0 = Flow.pass s1)
    (hdead : has_hup_err s1.child_stdout = true ∨
      (has_in s1.child_stdout = true ∧
        (sys_read s1.child_stdout.fd BUF_SIZ e.read_stdout).1 ≤ 0)) :
    ∃ s2, iteration listening_sock child_argc e s = Flow.next s2 ∧
      s2.subp = none ∧ s2.child_stdout.fd = -1 ∧ s2.child_stderr.fd = -1 ∧
      s2.client.fd = -1 ∧ s2.listener.fd = listening_sock ∧
      (0 ≤ s1.client.fd → ∃ evs, s2.trace = s1.trace ++ evs ∧
        Event.sys_close s1.client.fd ∈ evs) := by
  by_cases hh : has_hup_err s1.child_stdout = true
  · obtain ⟨t1, t2, t3, t4, t5, t6⟩ := teardown_spec s1 true listening_sock
    refine ⟨_, ?_, t1, t2, t3, t4, t5, t6⟩
    simp only [iteration, hp, Flow.andThen, hl, stage_stdout_hup, hh, if_true]
  · rcases hdead with hd | ⟨hin, hread⟩
    · exact absurd hd hh
    · obtain ⟨t1, t2, t3, t4, t5, t6⟩ := teardown_spec
        (s1.log [Event.sys_read s1.child_stdout.fd
          (sys_read s1.child_stdout.fd BUF_SIZ e.read_stdout).1
          (sys_read s1.child_stdout.fd BUF_SIZ e.read_stdout).2]) false listening_sock
      have hit : iteration listening_sock child_argc e s = Flow.next
          ((cleanup_client (cleanup_child (s1.log [Event.sys_read s1.child_stdout.fd
          (sys_read s1.child_stdout.fd BUF_SIZ e.read_stdout).1
          (sys_read s1.child_stdout.fd BUF_SIZ e.read_stdout).2])) false).set_listener_fd
            listening_sock) := by
        have e1 : stage_stdout_hup listening_sock s1 = Flow.pass s1 := by
          rw [stage_stdout_hup, if_neg hh]
        have e2 : stage_stdout_data listening_sock e s1 = Flow.next
            ((cleanup_client (cleanup_child (s1.log [Event.sys_read s1.child_stdout.fd
            (sys_read s1.child_stdout.fd BUF_SIZ e.read_stdout).1
            (sys_read s1.child_stdout.fd BUF_SIZ e.read_stdout).2])) false).set_listener_fd
              listening_sock) := by
          by_cases hneg : (sys_read s1.child_stdout.fd BUF_SIZ e.read_stdout).1 < 0
          · simp only [stage_stdout_data]
            rw [if_pos hin, if_pos hneg]
          · have hz : (sys_read s1.child_stdout.fd BUF_SIZ e.read_stdout).1 = 0 := by omega
            simp only [stage_stdout_data]
            rw [if_pos hin, if_neg hneg, if_pos hz]
        simp only [iteration, hp, Flow.andThen, hl, e1, e2]
      refine ⟨_, hit, t1, t2, t3, t4, t5, ?_⟩
      intro hc
      obtain ⟨evs, ht, hm⟩ := t6 hc
      refine ⟨[Event.sys_read s1.child_stdout.fd
          (sys_read s1.child_stdout.fd BUF_SIZ e.read_stdout).1
          (sys_read s1.child_stdout.fd BUF_SIZ e.read_stdout).2] ++ evs, ?_, ?_⟩
      · rw [ht]; simp only [State.log, List.append_assoc]
      · exact List.mem_append_right _ hm

/-- Witness for C4: a client is attached (socket 4), the child is alive, and `poll` reports a
hang up on the stdout of the child. -/
theorem child_death_cascade_witness :
    ∃ s2, iteration 3 1 env_child_hup state_serving = Flow.next s2 ∧
      s2.subp = none ∧ s2.child_stdout.fd = -1 ∧ s2.child_stderr.fd = -1 ∧
      s2.client.fd = -1 ∧ s2.listener.fd = 3 ∧
      (0 ≤ (stage_poll env_child_hup state_serving).state.client.fd → ∃ evs,
        s2.trace = (stage_poll env_child_hup state_serving).state.trace ++ evs ∧
        Event.sys_close (stage_poll env_child_hup state_serving).state.client.fd ∈ evs) :=
  child_death_cascade 3 1 env_child_hup state_serving
    (stage_poll env_child_hup state_serving).state
    (stage_poll env_child_hup state_serving).state
    (by decide) (by decide) (Or.inl (by decide))

/-- Claim C4 (counterexample).  In the reachable state with the child alive, no client and the
listener monitored, `poll` reports a pending connection together with a hang up on the stdout of the
child, and `accept` fails.  The iteration ends at the `continue` of the failed `accept`: the stdout of
the child did report POLLHUP in this iteration, yet the child is still there (handle, stdout
slot 7, stderr slot 9) when the iteration ends. -/
theorem child_hup_skipped_by_failed_accept :
    has_hup_err (iteration 3 1 (env_connect_and_child_hup (-1)) state_child_only).state.child_stdout
      = true ∧
    iteration 3 1 (env_connect_and_child_hup (-1)) state_child_only =
      Flow.next (iteration 3 1 (env_connect_and_child_hup (-1)) state_child_only).state ∧
    (iteration 3 1 (env_connect_and_child_hup (-1)) state_child_only).state.subp
      = some handle_ok ∧
    (iteration 3 1 (env_connect_and_child_hup (-1)) state_child_only).state.child_stdout.fd = 7 ∧
    (iteration 3 1 (env_connect_and_child_hup (-1)) state_child_only).state.child_stderr.fd
      = 9 := by
  decide

/-! ## Events added by the branches after the listener -/

theorem grows_by_log (R : Event → Prop) (t0 : List Event) (s : State) (ev : Event)
    (h : grows_by R t0 s) (hev : R ev) : grows_by R t0 (s.log [ev]) := by
  obtain ⟨⟨evs, ht, hall⟩, hw⟩ := h
  refine ⟨⟨evs ++ [ev], ?_, ?_⟩, hw⟩
  · simp only [State.log, ht, List.append_assoc]
  · intro x hx
    rcases List.mem_append.mp hx with hx | hx
    · exact hall x hx
    · rw [List.mem_singleton.mp hx]; exact hev

theorem grows_by_cleanup_child (R : Event → Prop) (hR : ∀ ev, ev.is_quiet = true → R ev)
    (t0 : List Event) (s : State) (h : grows_by R t0 s) : grows_by R t0 (cleanup_child s) := by
  obtain ⟨⟨evs, ht, hall⟩, hw⟩ := h
  obtain ⟨evs1, ht1, hc⟩ := cleanup_child_trace s
  refine ⟨⟨evs ++ evs1, ?_, ?_⟩, hw⟩
  · rw [ht1, ht, List.append_assoc]
  · intro x hx
    rcases List.mem_append.mp hx with hx | hx
    · exact hall x hx
    · apply hR
      have := hc x hx
      cases x <;> simp_all [Event.is_close, Event.is_quiet]

theorem grows_by_detach (R : Event → Prop) (hR : ∀ ev, ev.is_quiet = true → R ev)
    (t0 : List Event) (s : State) (b : Bool) (v : Int) (h : grows_by R t0 s) :
    grows_by R t0 ((cleanup_client s b).set_listener_fd v) := by
  obtain ⟨⟨evs, ht, hall⟩, hw⟩ := h
  refine ⟨⟨evs ++ (if 0 ≤ s.client.fd then
      (if b = true then [Event.log_disconnect_client] else []) ++ [Event.sys_close s.client.fd]
      else []), ?_, ?_⟩, ?_⟩
  · simp only [State.set_listener_fd, cleanup_client, ht, List.append_assoc]
  · intro x hx
    rcases List.mem_append.mp hx with hx | hx
    · exact hall x hx
    · apply hR
      split at hx
      · cases b <;> simp at hx
        · subst hx; rfl
        · rcases hx with hx | hx <;> (subst hx; rfl)
      · simp at hx
  · rcases hw with hw | hw
    · exact Or.inl hw
    · exact Or.inr ⟨by simp [State.set_listener_fd, cleanup_client], hw.2⟩

theorem grows_by_teardown (R : Event → Prop) (hR : ∀ ev, ev.is_quiet = true → R ev)
    (t0 : List Event) (s : State) (b : Bool) (v : Int) (h : grows_by R t0 s) :
    grows_by R t0 ((cleanup_client (cleanup_child s) b).set_listener_fd v) :=
  grows_by_detach R hR t0 _ b v (grows_by_cleanup_child R hR t0 s h)

theorem grows_by_teardown_swapped (R : Event → Prop) (hR : ∀ ev, ev.is_quiet = true → R ev)
    (t0 : List Event) (s : State) (b : Bool) (v : Int) (h : grows_by R t0 s) :
    grows_by R t0 (cleanup_client ((cleanup_child s).set_listener_fd v) b) :=
  grows_by_detach R hR t0 _ b v (grows_by_cleanup_child R hR t0 s h)

theorem grows_by_stdout_hup (R : Event → Prop) (hR : ∀ ev, ev.is_quiet = true → R ev)
    (t0 : List Event) (ls : Int) (s : State) (h : grows_by R t0 s) :
    grows_by R t0 (stage_stdout_hup ls s).state := by
  simp only [stage_stdout_hup]
  split
  · exact grows_by_teardown R hR t0 _ _ _ h
  · exact h

theorem grows_by_stdout_data (R : Event → Prop) (hR : ∀ ev, ev.is_quiet = true → R ev)
    (t0 : List Event) (ls : Int) (e : IterEnv) (s : State) (h : grows_by R t0 s) :
    grows_by R t0 (stage_stdout_data ls e s).state := by
  simp only [stage_stdout_data]
  split
  · have h1 := grows_by_log R t0 s (Event.sys_read s.child_stdout.fd
      (sys_read s.child_stdout.fd BUF_SIZ e.read_stdout).1
      (sys_read s.child_stdout.fd BUF_SIZ e.read_stdout).2) h (hR _ rfl)
    split
    · exact grows_by_teardown R hR t0 _ _ _ h1
    · split
      · exact grows_by_teardown R hR t0 _ _ _ h1
      · split
        · rename_i hc
          have hw : ∀ f b n, R (Event.sys_write f b n) := by
            rcases h.2 with hw | hw
            · exact hw
            · exact absurd hw.1 (by have : 0 ≤ s.client.fd := hc; omega)
          have h2 := grows_by_log R t0 _ _ h1 (hw
            (s.log [Event.sys_read s.child_stdout.fd
              (sys_read s.child_stdout.fd BUF_SIZ e.read_stdout).1
              (sys_read s.child_stdout.fd BUF_SIZ e.read_stdout).2]).client.fd
            (sys_read s.child_stdout.fd BUF_SIZ e.read_stdout).2
            (sys_write (s.log [Event.sys_read s.child_stdout.fd
              (sys_read s.child_stdout.fd BUF_SIZ e.read_stdout).1
              (sys_read s.child_stdout.fd BUF_SIZ e.read_stdout).2]).client.fd
              (sys_read s.child_stdout.fd BUF_SIZ e.read_stdout).2 e.write_client))
          split
          · have h3 := grows_by_log R t0 _ (Event.sys_close
              ((s.log [Event.sys_read s.child_stdout.fd
              (sys_read s.child_stdout.fd BUF_SIZ e.read_stdout).1
              (sys_read s.child_stdout.fd BUF_SIZ e.read_stdout).2]).log [Event.sys_write
              (s.log [Event.sys_read s.child_stdout.fd
              (sys_read s.child_stdout.fd BUF_SIZ e.read_stdout).1
              (sys_read s.child_stdout.fd BUF_SIZ e.read_stdout).2]).client.fd
              (sys_read s.child_stdout.fd BUF_SIZ e.read_stdout).2
              (sys_write (s.log [Event.sys_read s.child_stdout.fd
              (sys_read s.child_stdout.fd BUF_SIZ e.read_stdout).1
              (sys_read s.child_stdout.fd BUF_SIZ e.read_stdout).2]).client.fd
              (sys_read s.child_stdout.fd BUF_SIZ e.read_stdout).2 e.write_client)]).client.fd)
              h2 (hR _ rfl)
            exact ⟨h3.1, Or.inl hw⟩
          · exact h2
        · exact h1
  · exact h

theorem grows_by_stderr (R : Event → Prop) (hR : ∀ ev, ev.is_quiet = true → R ev)
    (t0 : List Event) (ls : Int) (e : IterEnv) (s : State) (h : grows_by R t0 s) :
    grows_by R t0 (stage_stderr ls e s).state := by
  simp only [stage_stderr]
  split
  · have h1 := grows_by_log R t0 s (Event.sys_read s.child_stderr.fd
      (sys_read s.child_stderr.fd (BUF_SIZ - 1) e.read_stderr).1
      (sys_read s.child_stderr.fd (BUF_SIZ - 1) e.read_stderr).2) h (hR _ rfl)
    split
    · exact grows_by_teardown R hR t0 _ _ _ h1
    · split
      · exact grows_by_teardown R hR t0 _ _ _ h1
      · exact h1
  · exact h

theorem grows_by_client_hup (R : Event → Prop) (hR : ∀ ev, ev.is_quiet = true → R ev)
    (t0 : List Event) (ls : Int) (s : State) (h : grows_by R t0 s) :
    grows_by R t0 (stage_client_hup ls s).state := by
  simp only [stage_client_hup]
  split
  · exact grows_by_detach R hR t0 _ _ _ h
  · exact h

theorem grows_by_client_data (R : Event → Prop) (hR : ∀ ev, ev.is_quiet = true → R ev)
    (t0 : List Event) (ls : Int) (e : IterEnv) (s : State) (h : grows_by R t0 s) :
    grows_by R t0 (stage_client_data ls e s).state := by
  simp only [stage_client_data]
  split
  · rename_i hin
    have hw : ∀ f b n, R (Event.sys_write f b n) := by
      rcases h.2 with hw | hw
      · exact hw
      · exact absurd hw.2 (has_in_revents_ne _ hin)
    have h1 := grows_by_log R t0 s (Event.sys_read s.client.fd
      (sys_read s.client.fd BUF_SIZ e.read_client).1
      (sys_read s.client.fd BUF_SIZ e.read_client).2) h (hR _ rfl)
    split
    · exact grows_by_detach R hR t0 _ _ _ h1
    · split
      · exact grows_by_detach R hR t0 _ _ _ h1
      · split
        · exact grows_by_detach R hR t0 _ _ _ h1
        · split
          · exact grows_by_teardown_swapped R hR t0 _ _ _ (grows_by_log R t0 _ _ h1 (hw _ _ _))
          · exact grows_by_log R t0 _ _ h1 (hw _ _ _)
  · exact h

/-- The five branches after the listener branch, applied to what the first two give. -/
theorem grows_by_rest (R : Event → Prop) (hR : ∀ ev, ev.is_quiet = true → R ev)
    (t0 : List Event) (ls : Int) (e : IterEnv) (f : Flow) (h : grows_by R t0 f.state) :
    grows_by R t0 (((((f.andThen (stage_stdout_hup ls)).andThen
      (stage_stdout_data ls e)).andThen (stage_stderr ls e)).andThen
      (stage_client_hup ls)).andThen (stage_client_data ls e)).state := by
  refine Flow.andThen_state _ _ _ (Flow.andThen_state _ _ _ (Flow.andThen_state _ _ _
    (Flow.andThen_state _ _ _ (Flow.andThen_state _ _ _ h ?_) ?_) ?_) ?_) ?_
  · intro s1 _ h1; exact grows_by_stdout_hup R hR t0 ls s1 h1
  · intro s1 _ h1; exact grows_by_stdout_data R hR t0 ls e s1 h1
  · intro s1 _ h1; exact grows_by_stderr R hR t0 ls e s1 h1
  · intro s1 _ h1; exact grows_by_client_hup R hR t0 ls s1 h1
  · intro s1 _ h1; exact grows_by_client_data R hR t0 ls e s1 h1

/-- The branches after the first two add events satisfying `R` when the first two did and, in
case they fell through, left a state from which the trace grows by `R`. -/
theorem extends_by_rest (R : Event → Prop) (hR : ∀ ev, ev.is_quiet = true → R ev)
    (t0 : List Event) (ls : Int) (e : IterEnv) (f : Flow) (h1 : extends_by R t0 f.state)
    (h2 : ∀ s, f = Flow.pass s → grows_by R t0 s) :
    extends_by R t0 (((((f.andThen (stage_stdout_hup ls)).andThen
      (stage_stdout_data ls e)).andThen (stage_stderr ls e)).andThen
      (stage_client_hup ls)).andThen (stage_client_data ls e)).state := by
  cases f with
  | pass s => exact (grows_by_rest R hR t0 ls e (Flow.pass s) (h2 s rfl)).1
  | next s => exact h1
  | exit s err => exact h1

/-! ## Branches that are not taken -/

theorem has_in_poll_zero (p : pollfd) : has_in (poll_revents p 0) = false := by
  simp [has_in, poll_revents]

theorem has_hup_err_poll_zero (p : pollfd) : has_hup_err (poll_revents p 0) = false := by
  simp [has_hup_err, poll_revents]

theorem stage_listener_skip (argc : Int) (e : IterEnv) (s : State)
    (h : has_in s.listener = false) : stage_listener argc e s = Flow.pass s := by
  simp [stage_listener, h]

theorem stage_stdout_hup_skip (ls : Int) (s : State) (h : has_hup_err s.child_stdout = false) :
    stage_stdout_hup ls s = Flow.pass s := by
  simp [stage_stdout_hup, h]

theorem stage_stdout_data_skip (ls : Int) (e : IterEnv) (s : State)
    (h : has_in s.child_stdout = false) : stage_stdout_data ls e s = Flow.pass s := by
  simp [stage_stdout_data, h]

theorem stage_stderr_skip (ls : Int) (e : IterEnv) (s : State)
    (h : has_in s.child_stderr = false) : stage_stderr ls e s = Flow.pass s := by
  simp [stage_stderr, h]

theorem stage_client_hup_skip (ls : Int) (s : State) (h : has_hup_err s.client = false) :
    stage_client_hup ls s = Flow.pass s := by
  simp [stage_client_hup, h]

/-- The client branches when the client hangs up, or its `read` returns 0 or a negative value:
the client is detached and the listener monitored, nothing else changes. -/
theorem client_gone (ls : Int) (e : IterEnv) (s : State)
    (hev : has_hup_err s.client = true ∨
      (has_in s.client = true ∧ (sys_read s.client.fd BUF_SIZ e.read_client).1 ≤ 0)) :
    ∃ s1, (stage_client_hup ls s).andThen (stage_client_data ls e) = Flow.next s1 ∧
      s1.subp = s.subp ∧ s1.child_stdout = s.child_stdout ∧ s1.child_stderr = s.child_stderr ∧
      s1.client.fd = -1 ∧ s1.listener.fd = ls := by
  by_cases hh : has_hup_err s.client = true
  · refine ⟨(cleanup_client s false).set_listener_fd ls, ?_, rfl, rfl, rfl, rfl, rfl⟩
    simp only [stage_client_hup, if_pos hh, Flow.andThen]
  · rcases hev with hd | ⟨hin, hread⟩
    · exact absurd hd hh
    · refine ⟨(cleanup_client (s.log [Event.sys_read s.client.fd
        (sys_read s.client.fd BUF_SIZ e.read_client).1
        (sys_read s.client.fd BUF_SIZ e.read_client).2]) false).set_listener_fd ls,
        ?_, rfl, rfl, rfl, rfl, rfl⟩
      have e1 : stage_client_hup ls s = Flow.pass s := by
        rw [stage_client_hup, if_neg hh]
      rw [e1]
      simp only [Flow.andThen, stage_client_data]
      rw [if_pos hin]
      by_cases hneg : (sys_read s.client.fd BUF_SIZ e.read_client).1 < 0
      · rw [if_pos hneg]
      · have hz : (sys_read s.client.fd BUF_SIZ e.read_client).1 = 0 := by omega
        rw [if_neg hneg, if_pos hz]

theorem sys_poll_frame (a : PollAnswer) (s : State) :
    (sys_poll a s).2.subp = s.subp ∧
    (sys_poll a s).2.trace = s.trace ++ [Event.sys_poll (s.fds.take NFDS) NFDS] ∧
    (sys_poll a s).2.listener.fd = s.listener.fd ∧
    (sys_poll a s).2.child_stdout.fd = s.child_stdout.fd ∧
    (sys_poll a s).2.child_stderr.fd = s.child_stderr.fd ∧
    (sys_poll a s).2.client.fd = s.client.fd := by
  cases hf : a.fail with
  | true => rw [sys_poll_fail _ _ hf]; exact ⟨rfl, rfl, rfl, rfl, rfl, rfl⟩
  | false => rw [sys_poll_ok _ _ hf]; exact ⟨rfl, rfl, rfl, rfl, rfl, rfl⟩

/-- With a child present, the `poll` and listener branches add only a `poll` and at most an
`accept` to the trace, and keep the child. -/
theorem poll_listener_with_child (argc : Int) (e : IterEnv) (s : State) (h : Subprocess)
    (hsub : s.subp = some h) :
    extends_by (fun ev => ev ≠ Event.launch_called) s.trace
      ((stage_poll e s).andThen (stage_listener argc e)).state := by
  obtain ⟨ps, pt, -⟩ := sys_poll_frame e.poll s
  have hst := stage_poll_state e s
  have hpoll : extends_by (fun ev => ev ≠ Event.launch_called) s.trace
      (stage_poll e s).state := by
    rw [hst]
    exact ⟨_, pt, by intro ev hev; rw [List.mem_singleton.mp hev]; simp⟩
  cases hp : stage_poll e s with
  | next s0 => rw [hp] at hpoll; exact hpoll
  | exit s0 err => rw [hp] at hpoll; exact hpoll
  | pass s0 =>
    rw [hp] at hst hpoll
    have hsub0 : s0.subp = some h := by rw [show s0 = (sys_poll e.poll s).2 from hst, ps, hsub]
    obtain ⟨evs, ht, hall⟩ := hpoll
    replace ht : s0.trace = s.trace ++ evs := ht
    have hacc : extends_by (fun ev => ev ≠ Event.launch_called) s.trace
        (s0.log [Event.sys_accept s0.listener.fd s0.client.fd
          (sys_accept s0.listener.fd e.accept)]) := by
      refine ⟨evs ++ [Event.sys_accept s0.listener.fd s0.client.fd
          (sys_accept s0.listener.fd e.accept)], ?_, ?_⟩
      · simp only [State.log, ht, List.append_assoc]
      · intro ev hev
        rcases List.mem_append.mp hev with hev | hev
        · exact hall ev hev
        · rw [List.mem_singleton.mp hev]; simp
    simp only [Flow.andThen, stage_listener]
    split
    · split
      · exact hacc
      · have hsub2 : (((s0.log [Event.sys_accept s0.listener.fd s0.client.fd
            (sys_accept s0.listener.fd e.accept)]).set_listener_fd (-1)).set_client_fd
            (sys_accept s0.listener.fd e.accept)).subp = some h := hsub0
        simp only [hsub2]
        exact hacc
    · exact ⟨evs, ht, hall⟩

theorem Flow.pass_andThen (s : State) (k : State → Flow) : (Flow.pass s).andThen k = k s := rfl

/-! ## Child persistence across client disconnects -/

/-- Claim C5.  Child persistence.  Let the child be alive (`subp` holds handle `h`) and let an
iteration have the client as its only event: `poll` succeeds, reports nothing for the listener,
the stdout and the stderr of the child, and for the client (which is then attached) either
POLLHUP or POLLERR, or POLLIN with a `read` that returns 0 or a negative value.  The iteration
ends by `continue` with the same child handle and the same child-stdout and child-stderr slots,
the client detached (`client->fd == -1`) and the listener slot set to `listening_sock`; and the
iteration that follows, whatever the environment answers in it (in particular when it accepts a
new client), does not enter `Subprocess::launch`. -/
theorem child_survives_client_disconnect (listening_sock child_argc : Int) (e enext : IterEnv)
    (s : State) (h : Subprocess)
    (hsub : s.subp = some h)
    (hpoll : e.poll.fail = false)
    (hl : e.poll.listener = 0) (ho : e.poll.child_stdout = 0) (hr : e.poll.child_stderr = 0)
    (hev : has_hup_err (poll_revents s.client e.poll.client) = true ∨
      (has_in (poll_revents s.client e.poll.client) = true ∧
        (sys_read s.client.fd BUF_SIZ e.read_client).1 ≤ 0)) :
    ∃ s1, iteration listening_sock child_argc e s = Flow.next s1 ∧
      s1.subp = some h ∧ s1.child_stdout.fd = s.child_stdout.fd ∧
      s1.child_stderr.fd = s.child_stderr.fd ∧ s1.client.fd = -1 ∧
      s1.listener.fd = listening_sock ∧
      ∃ evs, (iteration listening_sock child_argc enext s1).state.trace = s1.trace ++ evs ∧
        Event.launch_called ∉ evs := by
  have hne : (poll_revents s.client e.poll.client).revents ≠ 0 := by
    rcases hev with h1 | ⟨h1, -⟩
    · exact has_hup_err_revents_ne _ h1
    · exact has_in_revents_ne _ h1
  have hp := stage_poll_pass_of e s hpoll (Or.inr (Or.inr (Or.inr hne)))
  have hs0 := sys_poll_ok e.poll s hpoll
  rw [hl, ho, hr] at hs0
  have e1 : stage_listener child_argc e (sys_poll e.poll s).2 = Flow.pass (sys_poll e.poll s).2 :=
    stage_listener_skip _ _ _ (by rw [hs0]; exact has_in_poll_zero _)
  have e2 : stage_stdout_hup listening_sock (sys_poll e.poll s).2
      = Flow.pass (sys_poll e.poll s).2 :=
    stage_stdout_hup_skip _ _ (by rw [hs0]; exact has_hup_err_poll_zero _)
  have e3 : stage_stdout_data listening_sock e (sys_poll e.poll s).2
      = Flow.pass (sys_poll e.poll s).2 :=
    stage_stdout_data_skip _ _ _ (by rw [hs0]; exact has_in_poll_zero _)
  have e4 : stage_stderr listening_sock e (sys_poll e.poll s).2
      = Flow.pass (sys_poll e.poll s).2 :=
    stage_stderr_skip _ _ _ (by rw [hs0]; exact has_in_poll_zero _)
  obtain ⟨s1, hgone, g1, g2, g3, g4, g5⟩ := client_gone listening_sock e (sys_poll e.poll s).2
    (by rw [hs0]; exact hev)
  have hit : iteration listening_sock child_argc e s = Flow.next s1 := by
    unfold iteration
    rw [hp, Flow.pass_andThen, e1, Flow.pass_andThen, e2, Flow.pass_andThen, e3,
      Flow.pass_andThen, e4, Flow.pass_andThen]
    exact hgone
  obtain ⟨ps, -, -, po, pe, -⟩ := sys_poll_frame e.poll s
  have hsub1 : s1.subp = some h := by rw [g1, ps, hsub]
  refine ⟨s1, hit, hsub1, by rw [g2, po], by rw [g3, pe], g4, g5, ?_⟩
  have hR : ∀ ev : Event, ev.is_quiet = true → ev ≠ Event.launch_called := by
    intro ev hq hc; subst hc; simp [Event.is_quiet] at hq
  have hpl := poll_listener_with_child child_argc enext s1 h hsub1
  obtain ⟨evs, ht, hall⟩ := extends_by_rest (fun ev => ev ≠ Event.launch_called) hR s1.trace
    listening_sock enext _ hpl
    (by
      intro s2 hs2
      rw [hs2] at hpl
      exact ⟨hpl, Or.inl (by intro f b n; simp)⟩)
  exact ⟨evs, ht, fun hmem => hall _ hmem rfl⟩

/-- Witness for C5: the client attached on socket 4 hangs up, and a new client then connects on
socket 5. -/
theorem child_survives_client_disconnect_witness :
    ∃ s1, iteration 3 1 env_client_hup state_serving = Flow.next s1 ∧
      s1.subp = some handle_ok ∧ s1.child_stdout.fd = state_serving.child_stdout.fd ∧
      s1.child_stderr.fd = state_serving.child_stderr.fd ∧ s1.client.fd = -1 ∧
      s1.listener.fd = 3 ∧
      ∃ evs, (iteration 3 1 (env_connect 5) s1).state.trace = s1.trace ++ evs ∧
        Event.launch_called ∉ evs :=
  child_survives_client_disconnect 3 1 env_client_hup (env_connect 5) state_serving handle_ok
    (by decide) (by decide) (by decide) (by decide) (by decide) (Or.inl (by decide))

/-! ## Output of the child while no client is attached -/

/-- The `poll` and listener branches when no client is attached and none is accepted: only a
`poll` and at most a failed `accept` are added, and when they fall through to the next branch
still no client is attached and nothing is reported on the client entry. -/
theorem poll_listener_without_client (argc : Int) (e : IterEnv) (s : State)
    (hno : s.client.fd < 0)
    (hacc : has_in (poll_revents s.listener e.poll.listener) = false ∨
      sys_accept s.listener.fd e.accept < 0) :
    extends_by (fun ev => ev.is_write = false) s.trace
        ((stage_poll e s).andThen (stage_listener argc e)).state ∧
    ∀ s2, (stage_poll e s).andThen (stage_listener argc e) = Flow.pass s2 →
      no_client_event s2 := by
  obtain ⟨-, pt, pl, -, -, pc⟩ := sys_poll_frame e.poll s
  have hst := stage_poll_state e s
  have hpoll : extends_by (fun ev => ev.is_write = false) s.trace (stage_poll e s).state := by
    rw [hst]
    exact ⟨_, pt, by intro ev hev; rw [List.mem_singleton.mp hev]; rfl⟩
  cases hp : stage_poll e s with
  | next s0 =>
    rw [hp] at hpoll
    exact ⟨hpoll, by intro s2 h2; cases h2⟩
  | exit s0 err =>
    rw [hp] at hpoll
    exact ⟨hpoll, by intro s2 h2; cases h2⟩
  | pass s0 =>
    obtain ⟨hf, hs0⟩ := stage_poll_pass e s s0 hp
    rw [hp] at hpoll
    obtain ⟨evs, ht, hall⟩ := hpoll
    replace ht : s0.trace = s.trace ++ evs := ht
    have hok := sys_poll_ok e.poll s hf
    have hnc : no_client_event s0 := by
      rw [hs0, hok]
      exact ⟨hno, by simp [poll_revents, hno]⟩
    have hlis : s0.listener = poll_revents s.listener e.poll.listener := by rw [hs0, hok]
    rw [Flow.pass_andThen]
    by_cases hin : has_in s0.listener = true
    · have hneg : sys_accept s0.listener.fd e.accept < 0 := by
        rcases hacc with h1 | h1
        · rw [hlis, h1] at hin; cases hin
        · rw [hlis]; exact h1
      have e1 : stage_listener argc e s0 = Flow.next (s0.log
          [Event.sys_accept s0.listener.fd s0.client.fd (sys_accept s0.listener.fd e.accept)]) := by
        simp only [stage_listener]
        rw [if_pos hin, if_pos hneg]
      rw [e1]
      refine ⟨⟨evs ++ [Event.sys_accept s0.listener.fd s0.client.fd
        (sys_accept s0.listener.fd e.accept)], ?_, ?_⟩, by intro s2 h2; cases h2⟩
      · simp only [Flow.state, State.log, ht, List.append_assoc]
      · intro ev hev
        rcases List.mem_append.mp hev with hev | hev
        · exact hall ev hev
        · rw [List.mem_singleton.mp hev]; rfl
    · have e1 : stage_listener argc e s0 = Flow.pass s0 :=
        stage_listener_skip _ _ _ (by simpa using hin)
      rw [e1]
      refine ⟨⟨evs, ht, hall⟩, ?_⟩
      intro s2 h2
      cases h2
      exact hnc

/-- The last three branches only add events to the trace. -/
theorem trace_grows_tail (ls : Int) (e : IterEnv) (f : Flow) :
    ∃ evs, ((((f.andThen (stage_stderr ls e)).andThen (stage_client_hup ls)).andThen
      (stage_client_data ls e)).state).trace = f.state.trace ++ evs := by
  have hR : ∀ ev : Event, ev.is_quiet = true → (fun _ => True) ev := fun _ _ => trivial
  have h0 : grows_by (fun _ => True) f.state.trace f.state :=
    ⟨⟨[], by simp, by simp⟩, Or.inl (fun _ _ _ => trivial)⟩
  have h := Flow.andThen_state (grows_by (fun _ => True) f.state.trace) _
    (stage_client_data ls e)
    (Flow.andThen_state _ _ (stage_client_hup ls)
      (Flow.andThen_state _ f (stage_stderr ls e) h0
        (fun s1 _ h1 => grows_by_stderr _ hR _ ls e s1 h1))
      (fun s1 _ h1 => grows_by_client_hup _ hR _ ls s1 h1))
    (fun s1 _ h1 => grows_by_client_data _ hR _ ls e s1 h1)
  obtain ⟨⟨evs, ht, -⟩, -⟩ := h
  exact ⟨evs, ht⟩

/-- The listener branch when a connection is accepted and a child is present: the listener is
taken out of the table and the new socket becomes the client. -/
theorem stage_listener_accept (argc : Int) (e : IterEnv) (s : State) (h : Subprocess)
    (hin : has_in s.listener = true) (hfd : 0 ≤ s.listener.fd) (hacc : 0 ≤ e.accept)
    (hsub : s.subp = some h) :
    stage_listener argc e s = Flow.pass (((s.log [Event.sys_accept s.listener.fd s.client.fd
      e.accept]).set_listener_fd (-1)).set_client_fd e.accept) := by
  have hv := sys_accept_ok _ _ hfd hacc
  have hnn : ¬ sys_accept s.listener.fd e.accept < 0 := by rw [hv]; omega
  have hsub2 : (((s.log [Event.sys_accept s.listener.fd s.client.fd
      e.accept]).set_listener_fd (-1)).set_client_fd e.accept).subp = some h := hsub
  simp only [stage_listener]
  rw [if_pos hin, if_neg hnn]
  simp only [hv]
  simp only [hsub2]

/-- The stdout branch when data is read and a client is attached: the bytes read are handed to
one `write` on the client socket. -/
theorem stage_stdout_data_forwards (ls : Int) (e : IterEnv) (s : State)
    (hin : has_in s.child_stdout = true)
    (hread : 0 < (sys_read s.child_stdout.fd BUF_SIZ e.read_stdout).1)
    (hc : 0 ≤ s.client.fd) :
    ∃ evs, (stage_stdout_data ls e s).state.trace = s.trace ++ evs ∧
      Event.sys_write s.client.fd (sys_read s.child_stdout.fd BUF_SIZ e.read_stdout).2
        (sys_write s.client.fd (sys_read s.child_stdout.fd BUF_SIZ e.read_stdout).2
          e.write_client) ∈ evs := by
  have h1 : ¬ (sys_read s.child_stdout.fd BUF_SIZ e.read_stdout).1 < 0 := by omega
  have h2 : ¬ (sys_read s.child_stdout.fd BUF_SIZ e.read_stdout).1 = 0 := by omega
  have hc2 : 0 ≤ (s.log [Event.sys_read s.child_stdout.fd
      (sys_read s.child_stdout.fd BUF_SIZ e.read_stdout).1
      (sys_read s.child_stdout.fd BUF_SIZ e.read_stdout).2]).client.fd := hc
  simp only [stage_stdout_data]
  rw [if_pos hin, if_neg h1, if_neg h2, if_pos hc2]
  split
  · exact ⟨[Event.sys_read s.child_stdout.fd
        (sys_read s.child_stdout.fd BUF_SIZ e.read_stdout).1
        (sys_read s.child_stdout.fd BUF_SIZ e.read_stdout).2,
      Event.sys_write s.client.fd (sys_read s.child_stdout.fd BUF_SIZ e.read_stdout).2
        (sys_write s.client.fd (sys_read s.child_stdout.fd BUF_SIZ e.read_stdout).2
          e.write_client),
      Event.sys_close s.client.fd],
      by simp [Flow.state, State.log, State.set_client_fd], by simp⟩
  · exact ⟨[Event.sys_read s.child_stdout.fd
        (sys_read s.child_stdout.fd BUF_SIZ e.read_stdout).1
        (sys_read s.child_stdout.fd BUF_SIZ e.read_stdout).2,
      Event.sys_write s.client.fd (sys_read s.child_stdout.fd BUF_SIZ e.read_stdout).2
        (sys_write s.client.fd (sys_read s.child_stdout.fd BUF_SIZ e.read_stdout).2
          e.write_client)],
      by simp [Flow.state, State.log], by simp⟩

/-- Claim C6 (amended).  Detached-output drop.  Let no client be attached when `poll` is called
(`client->fd < 0`).
(1) When no client is accepted in the iteration (`poll` does not report the listener readable,
or `accept` fails), the iteration performs no `write` at all: the bytes it reads from the stdout of
the child are discarded.
(2) When a child is present and the iteration accepts a client (`poll` reports the listener
readable, `accept` returns a socket) and `poll` also reports data, and no hang up or error, on the
stdout of the child, and the `read` returns bytes, then these bytes are handed to a `write` on the
socket of the client accepted in this iteration. -/
theorem detached_output_drop (listening_sock child_argc : Int) (e : IterEnv) (s : State)
    (hno : s.client.fd < 0) :
    ((has_in (poll_revents s.listener e.poll.listener) = false ∨
        sys_accept s.listener.fd e.accept < 0) →
      ∃ evs, (iteration listening_sock child_argc e s).state.trace = s.trace ++ evs ∧
        ∀ ev ∈ evs, ev.is_write = false) ∧
    (∀ h, s.subp = some h → e.poll.fail = false →
      has_in (poll_revents s.listener e.poll.listener) = true → 0 ≤ e.accept →
      has_hup_err (poll_revents s.child_stdout e.poll.child_stdout) = false →
      has_in (poll_revents s.child_stdout e.poll.child_stdout) = true →
      0 < (sys_read s.child_stdout.fd BUF_SIZ e.read_stdout).1 →
      ∃ evs, (iteration listening_sock child_argc e s).state.trace = s.trace ++ evs ∧
        Event.sys_write e.accept (sys_read s.child_stdout.fd BUF_SIZ e.read_stdout).2
          (sys_write e.accept (sys_read s.child_stdout.fd BUF_SIZ e.read_stdout).2
            e.write_client) ∈ evs) := by
  constructor
  · intro hacc
    obtain ⟨h1, h2⟩ := poll_listener_without_client child_argc e s hno hacc
    have hR : ∀ ev : Event, ev.is_quiet = true → ev.is_write = false := by
      intro ev hq; cases ev <;> simp_all [Event.is_quiet, Event.is_write]
    exact extends_by_rest (fun ev => ev.is_write = false) hR s.trace listening_sock e _ h1
      (fun s2 hs2 => ⟨by rw [hs2] at h1; exact h1, Or.inr (h2 s2 hs2)⟩)
  · intro h hsub hpoll hin hacc hnh hdata hread
    have hp := stage_poll_pass_of e s hpoll (Or.inl (has_in_revents_ne _ hin))
    have hfd : 0 ≤ s.listener.fd := poll_revents_has_in _ _ hin
    have hok := sys_poll_ok e.poll s hpoll
    obtain ⟨ps, pt, pl, po, -, -⟩ := sys_poll_frame e.poll s
    have hlis : (sys_poll e.poll s).2.listener = poll_revents s.listener e.poll.listener := by
      rw [hok]
    have hout : (sys_poll e.poll s).2.child_stdout
        = poll_revents s.child_stdout e.poll.child_stdout := by rw [hok]
    have e1 := stage_listener_accept child_argc e (sys_poll e.poll s).2 h
      (by rw [hlis]; exact hin) (by rw [pl]; exact hfd) hacc (by rw [ps]; exact hsub)
    have e2 : stage_stdout_hup listening_sock ((((sys_poll e.poll s).2.log
        [Event.sys_accept (sys_poll e.poll s).2.listener.fd (sys_poll e.poll s).2.client.fd
        e.accept]).set_listener_fd (-1)).set_client_fd e.accept) = Flow.pass _ :=
      stage_stdout_hup_skip _ _ (by
        show has_hup_err (sys_poll e.poll s).2.child_stdout = false
        rw [hout]; exact hnh)
    obtain ⟨evs2, ht2, hm2⟩ := stage_stdout_data_forwards listening_sock e
      ((((sys_poll e.poll s).2.log
        [Event.sys_accept (sys_poll e.poll s).2.listener.fd (sys_poll e.poll s).2.client.fd
        e.accept]).set_listener_fd (-1)).set_client_fd e.accept)
      (by show has_in (sys_poll e.poll s).2.child_stdout = true
          rw [hout]; exact hdata)
      (by show 0 < (sys_read (sys_poll e.poll s).2.child_stdout.fd BUF_SIZ e.read_stdout).1
          rw [po]; exact hread)
      hacc
    obtain ⟨evs3, ht3⟩ := trace_grows_tail listening_sock e (stage_stdout_data listening_sock e
      ((((sys_poll e.poll s).2.log
        [Event.sys_accept (sys_poll e.poll s).2.listener.fd (sys_poll e.poll s).2.client.fd
        e.accept]).set_listener_fd (-1)).set_client_fd e.accept))
    have hit : iteration listening_sock child_argc e s =
        (((stage_stdout_data listening_sock e ((((sys_poll e.poll s).2.log
        [Event.sys_accept (sys_poll e.poll s).2.listener.fd (sys_poll e.poll s).2.client.fd
        e.accept]).set_listener_fd (-1)).set_client_fd e.accept)).andThen
          (stage_stderr listening_sock e)).andThen (stage_client_hup listening_sock)).andThen
          (stage_client_data listening_sock e) := by
      unfold iteration
      rw [hp, Flow.pass_andThen, e1, Flow.pass_andThen, e2, Flow.pass_andThen]
    rw [hit, ht3, ht2]
    refine ⟨[Event.sys_poll (s.fds.take NFDS) NFDS] ++ [Event.sys_accept
      (sys_poll e.poll s).2.listener.fd (sys_poll e.poll s).2.client.fd e.accept]
      ++ evs2 ++ evs3, ?_, ?_⟩
    · show ((sys_poll e.poll s).2.trace ++ _) ++ evs2 ++ evs3 = _
      rw [pt]
      simp only [List.append_assoc]
    · have hm : Event.sys_write e.accept
          (sys_read s.child_stdout.fd BUF_SIZ e.read_stdout).2
          (sys_write e.accept (sys_read s.child_stdout.fd BUF_SIZ e.read_stdout).2
            e.write_client) ∈ evs2 := by
        have hm3 := hm2
        simp only [State.set_client_fd, State.set_listener_fd, State.log] at hm3
        rw [po] at hm3
        exact hm3
      exact List.mem_append_left _ (List.mem_append_right _ hm)

/-- Witness for C6: the child is alive and no client is attached; in one iteration the child
prints two bytes and nothing is written, in the other a client is accepted on socket 5 in the same
iteration and is written the two bytes. -/
theorem detached_output_drop_witness :
    (∃ evs, (iteration 3 1 (env_child_data [65, 66] 2) state_child_only).state.trace
        = state_child_only.trace ++ evs ∧ ∀ ev ∈ evs, ev.is_write = false) ∧
    (∃ evs, (iteration 3 1 (env_connect_and_child_data 5 [65, 66] 2) state_child_only).state.trace
        = state_child_only.trace ++ evs ∧ Event.sys_write 5 [65, 66] 2 ∈ evs) :=
  ⟨(detached_output_drop 3 1 (env_child_data [65, 66] 2) state_child_only (by decide)).1
      (Or.inl (by decide)),
    (detached_output_drop 3 1 (env_connect_and_child_data 5 [65, 66] 2) state_child_only
      (by decide)).2 handle_ok (by decide) (by decide) (by decide) (by decide) (by decide)
      (by decide) (by decide)⟩

/-- Claim C6 (counterexample).  The child is alive and no client is attached when `poll` is
called (`client->fd == -1`).  `poll` reports a pending connection and data on the stdout of the
child; `accept` returns socket 5, then the two bytes 65, 66 are read from the stdout pipe 7 and
written to socket 5: the client accepted in this iteration receives output the child produced
before it connected. -/
theorem output_forwarded_to_client_accepted_in_same_iteration :
    state_child_only.client.fd = -1 ∧
    state_child_only.subp = some handle_ok ∧
    written 5 state_child_only.trace = [] ∧
    (iteration 3 1 (env_connect_and_child_data 5 [65, 66] 2) state_child_only).state.trace
      = state_child_only.trace ++
        [Event.sys_poll (state_child_only.fds.take NFDS) NFDS, Event.sys_accept 3 (-1) 5,
          Event.sys_read 7 2 [65, 66], Event.sys_write 5 [65, 66] 2] ∧
    written 5
      (iteration 3 1 (env_connect_and_child_data 5 [65, 66] 2) state_child_only).state.trace
      = [65, 66] := by
  decide

/-! ## `Subprocess::write` -/

theorem sys_write_range (fd : Int) (buf : List Nat) (a : Int) :
    sys_write fd buf a = -1 ∨ (0 ≤ sys_write fd buf a ∧ sys_write fd buf a ≤ buf.length) := by
  unfold sys_write
  split
  · exact Or.inl rfl
  · split
    · exact Or.inl rfl
    · right; omega

theorem drop_take_all (data : List Nat) (off r : Nat) (h : off + r = data.length) :
    (data.drop off).take r = data.drop off := by
  apply List.take_of_length_le
  rw [List.length_drop]
  omega

/-- The loop of `Subprocess::write` from offset `off` with `remaining` bytes to go. -/
theorem write_loop_spec (fd : Int) (data : List Nat) :
    ∀ (answers : List Int) (off remaining : Nat),
      off + remaining = data.length → remaining < SIZE_MODULUS →
      calls_given_suffix fd data off (Subprocess.write_loop fd data answers off remaining).2 ∧
      ((Subprocess.write_loop fd data answers off remaining).1 = some (-1) ↔
        ∃ ev ∈ (Subprocess.write_loop fd data answers off remaining).2,
          ev.is_failed_write = true) ∧
      ((Subprocess.write_loop fd data answers off remaining).1 = some 0 →
        written fd (Subprocess.write_loop fd data answers off remaining).2 = data.drop off ∧
        accepted_count (Subprocess.write_loop fd data answers off remaining).2 = remaining) ∧
      ((Subprocess.write_loop fd data answers off remaining).1 = none →
        (Subprocess.write_loop fd data answers off remaining).2.length = answers.length ∧
        accepted_count (Subprocess.write_loop fd data answers off remaining).2 < remaining ∧
        ∀ ev ∈ (Subprocess.write_loop fd data answers off remaining).2,
          ev.is_failed_write = false) := by
  intro answers
  induction answers with
  | nil =>
    intro off remaining hsum _
    cases remaining with
    | zero =>
      have hd : data.drop off = [] := List.drop_eq_nil_of_le (by omega)
      simp [Subprocess.write_loop, calls_given_suffix, written, accepted_count, hd]
    | succ r =>
      simp [Subprocess.write_loop, calls_given_suffix, accepted_count]
  | cons a rest ih =>
    intro off remaining hsum hlt
    cases remaining with
    | zero =>
      have hd : data.drop off = [] := List.drop_eq_nil_of_le (by omega)
      simp [Subprocess.write_loop, calls_given_suffix, written, accepted_count, hd]
    | succ r =>
      have hbuf := drop_take_all data off (r + 1) hsum
      have hlen : (data.drop off).length = r + 1 := by rw [List.length_drop]; omega
      simp only [Subprocess.write_loop, hbuf]
      rcases sys_write_range fd (data.drop off) a with hn | ⟨hn0, hn1⟩
      · have hneg : sys_write fd (data.drop off) a < 0 := by rw [hn]; decide
        rw [if_pos hneg]
        refine ⟨⟨rfl, rfl, trivial⟩, ?_, ?_, ?_⟩
        · constructor
          · intro _
            exact ⟨_, List.mem_singleton.mpr rfl, by simp [Event.is_failed_write, hneg]⟩
          · intro _; rfl
        · intro h0; simp at h0
        · intro h0; simp at h0
      · have hnn : ¬ sys_write fd (data.drop off) a < 0 := by omega
        rw [if_neg hnn]
        rw [hlen] at hn1
        have hrem : (r + 1 + SIZE_MODULUS - (sys_write fd (data.drop off) a).toNat)
            % SIZE_MODULUS = r + 1 - (sys_write fd (data.drop off) a).toNat := by
          have hle : (sys_write fd (data.drop off) a).toNat ≤ r + 1 := by omega
          have e1 : r + 1 + SIZE_MODULUS - (sys_write fd (data.drop off) a).toNat
              = (r + 1 - (sys_write fd (data.drop off) a).toNat) + SIZE_MODULUS := by omega
          rw [e1, Nat.add_mod_right]
          exact Nat.mod_eq_of_lt (by omega)
        rw [hrem]
        obtain ⟨i1, i2, i3, i4⟩ := ih (off + (sys_write fd (data.drop off) a).toNat)
          (r + 1 - (sys_write fd (data.drop off) a).toNat) (by omega) (by omega)
        refine ⟨⟨rfl, rfl, i1⟩, ?_, ?_, ?_⟩
        · rw [i2]
          constructor
          · rintro ⟨ev, hev, hf⟩
            exact ⟨ev, List.mem_cons_of_mem _ hev, hf⟩
          · rintro ⟨ev, hev, hf⟩
            rcases List.mem_cons.mp hev with hev | hev
            · subst hev
              simp [Event.is_failed_write, hnn] at hf
            · exact ⟨ev, hev, hf⟩
        · intro h0
          obtain ⟨w1, w2⟩ := i3 h0
          constructor
          · simp only [written, hn0, and_self, if_true, w1]
            rw [← List.drop_drop]
            exact List.take_append_drop _ _
          · simp only [accepted_count, w2]
            omega
        · intro h0
          obtain ⟨n1, n2, n3⟩ := i4 h0
          refine ⟨by simp [n1], ?_, ?_⟩
          · simp only [accepted_count]
            omega
          · intro ev hev
            rcases List.mem_cons.mp hev with hev | hev
            · subst hev
              simp [Event.is_failed_write, hnn]
            · exact n3 ev hev

/-- Claim C7.  `Subprocess::write(data, len)` sends everything or reports an error.  For every
buffer `data` (of a length `len` that fits `size_t`) and every sequence of answers of the
underlying `write` (each seen by the function as -1 or as a count between 0 and the remaining
length):
(1) every underlying call is on the stdin pipe and is handed exactly the part of `data` not
accepted by the calls before it;
(2) the function returns -1 exactly when an underlying `write` returned a negative value;
(3) when it returns 0, the counts accepted sum to `len` and the bytes accepted are `data`;
(4) for `len == 0` it returns 0 without calling `write`;
(5) it returns whenever the answers hold a failure or enough progress: it is still inside the
loop (`none`) only when every answer has been consumed, none was negative, and the counts
accepted so far sum to less than `len`. -/
theorem write_sends_all_or_fails (h : Subprocess) (data : List Nat) (answers : List Int)
    (hlen : data.length < SIZE_MODULUS) :
    calls_given_suffix h.stdin_write data 0 (h.write data answers).2 ∧
    ((h.write data answers).1 = some (-1) ↔
      ∃ ev ∈ (h.write data answers).2, ev.is_failed_write = true) ∧
    ((h.write data answers).1 = some 0 →
      accepted_count (h.write data answers).2 = data.length ∧
      written h.stdin_write (h.write data answers).2 = data) ∧
    (data = [] → h.write data answers = (some 0, [])) ∧
    ((h.write data answers).1 = none →
      (h.write data answers).2.length = answers.length ∧
      accepted_count (h.write data answers).2 < data.length ∧
      ∀ ev ∈ (h.write data answers).2, ev.is_failed_write = false) := by
  obtain ⟨s1, s2, s3, s4⟩ := write_loop_spec h.stdin_write data answers 0 data.length
    (by omega) hlen
  refine ⟨s1, s2, ?_, ?_, s4⟩
  · intro h0
    obtain ⟨w1, w2⟩ := s3 h0
    exact ⟨w2, by simpa using w1⟩
  · intro hd
    subst hd
    cases answers <;> rfl

/-- Witness for C7: five bytes written to the stdin pipe 6 in four calls that accept 2, 0, 1 and
2 bytes (the last call is offered 2 bytes and the environment would take 7). -/
theorem write_sends_all_or_fails_witness :
    (handle_ok.write [1, 2, 3, 4, 5] [2, 0, 1, 7]).1 = some 0 ∧
    (handle_ok.write [1, 2, 3, 4, 5] [2, 0, 1, 7]).2 =
      [Event.sys_write 6 [1, 2, 3, 4, 5] 2, Event.sys_write 6 [3, 4, 5] 0,
        Event.sys_write 6 [3, 4, 5] 1, Event.sys_write 6 [4, 5] 2] ∧
    accepted_count (handle_ok.write [1, 2, 3, 4, 5] [2, 0, 1, 7]).2 = 5 ∧
    written 6 (handle_ok.write [1, 2, 3, 4, 5] [2, 0, 1, 7]).2 = [1, 2, 3, 4, 5] :=
  ⟨by decide, by decide,
    ((write_sends_all_or_fails handle_ok [1, 2, 3, 4, 5] [2, 0, 1, 7]
      (by decide)).2.2.1 (by decide)).1,
    ((write_sends_all_or_fails handle_ok [1, 2, 3, 4, 5] [2, 0, 1, 7]
      (by decide)).2.2.1 (by decide)).2⟩

/-! ## Descriptor tables -/

theorem FdTable.get_set_self (t : FdTable) (i : Nat) (v : Option Nat) :
    FdTable.get (FdTable.set t i v) i = v := by
  induction t generalizing i with
  | nil =>
    induction i with
    | zero => rfl
    | succ k ih => simpa [FdTable.set, FdTable.get] using ih
  | cons x t ih =>
    cases i with
    | zero => rfl
    | succ k => simpa [FdTable.set, FdTable.get] using ih k

theorem FdTable.get_nil (j : Nat) : FdTable.get [] j = none := by
  cases j <;> rfl

theorem FdTable.get_set_ne (t : FdTable) (i j : Nat) (v : Option Nat) (h : j ≠ i) :
    FdTable.get (FdTable.set t i v) j = FdTable.get t j := by
  induction t generalizing i j with
  | nil =>
    induction i generalizing j with
    | zero =>
      cases j with
      | zero => exact absurd rfl h
      | succ k => simp [FdTable.set, FdTable.get, FdTable.get_nil]
    | succ n ih =>
      cases j with
      | zero => simp [FdTable.set, FdTable.get]
      | succ k =>
        have := ih k (by omega)
        simpa [FdTable.set, FdTable.get, FdTable.get_nil] using this
  | cons x t ih =>
    cases i with
    | zero =>
      cases j with
      | zero => exact absurd rfl h
      | succ k => rfl
    | succ n =>
      cases j with
      | zero => rfl
      | succ k => simpa [FdTable.set, FdTable.get] using ih n k (by omega)

theorem FdTable.get_lowest_free (t : FdTable) : FdTable.get t (FdTable.lowest_free t) = none := by
  induction t with
  | nil => rfl
  | cons x t ih =>
    cases x with
    | none => rfl
    | some v => simpa [FdTable.lowest_free, FdTable.get] using ih

theorem FdTable.lookup_some (t : FdTable) (fd : Int) (r : Nat) (h : t.lookup fd = some r) :
    ∃ n : Nat, fd = (n : Int) ∧ FdTable.get t n = some r := by
  unfold FdTable.lookup at h
  split at h
  · cases h
  · exact ⟨fd.toNat, by omega, h⟩

theorem FdTable.lookup_nat (t : FdTable) (n : Nat) : t.lookup (n : Int) = FdTable.get t n := by
  have h : ¬ ((n : Int) < 0) := by omega
  simp only [FdTable.lookup, if_neg h, Int.toNat_ofNat]

theorem FdTable.free_low_set (t : FdTable) (r : Nat) (h : FdTable.lowest_free t ≤ 2) :
    FdTable.free_low (FdTable.set t (FdTable.lowest_free t) (some r)) + 1
      = FdTable.free_low t := by
  have hfree := FdTable.get_lowest_free t
  generalize FdTable.lowest_free t = i at h hfree
  have hi : i = 0 ∨ i = 1 ∨ i = 2 := by omega
  rcases hi with hi | hi | hi <;> subst hi
  · simp [FdTable.free_low, FdTable.get_set_self, FdTable.get_set_ne, hfree]
    omega
  · simp [FdTable.free_low, FdTable.get_set_self, FdTable.get_set_ne, hfree]
    omega
  · simp [FdTable.free_low, FdTable.get_set_self, FdTable.get_set_ne, hfree]

theorem FdTable.free_low_le (t : FdTable) : FdTable.free_low t ≤ 3 := by
  unfold FdTable.free_low
  split <;> split <;> split <;> omega

/-! ## Moving the pipe ends above the standard descriptors -/

/-- A descriptor above 2 is left where it is. -/
theorem child_move_fd_above_2_high (fuel : Nat) (t : FdTable) (fd : Int) (h : 3 ≤ fd) :
    child_move_fd_above_2 (fuel + 1) t fd = some (t, fd) := by
  have h2 : ¬ fd ≤ 2 := by omega
  simp only [child_move_fd_above_2, if_neg h2]

/-- With `dup` returning the lowest free descriptor, `child_move_fd_above_2` on an open
descriptor returns (the recursion is at most as deep as the number of free descriptors among 0..2,
plus 2), with the descriptor above 2 and referring to the same file description, and with every
descriptor that was open still referring to what it did. -/
theorem child_move_fd_above_2_spec :
    ∀ (fuel : Nat) (t : FdTable) (fd : Int) (r : Nat),
      t.lookup fd = some r → FdTable.free_low t + 2 ≤ fuel →
      ∃ t1 fd1, child_move_fd_above_2 fuel t fd = some (t1, fd1) ∧ 3 ≤ fd1 ∧
        t1.lookup fd1 = some r ∧
        ∀ j x, FdTable.get t j = some x → FdTable.get t1 j = some x := by
  intro fuel
  induction fuel with
  | zero => intro t fd r _ hf; omega
  | succ k ih =>
    intro t fd r hopen hf
    by_cases hlow : fd ≤ 2
    · have hdup : sys_dup t fd = ((FdTable.lowest_free t : Int),
          FdTable.set t (FdTable.lowest_free t) (some r)) := by
        simp only [sys_dup, hopen]
      have hne : ¬ (-1 = ((FdTable.lowest_free t : Nat) : Int)) := by omega
      have hnew : (FdTable.set t (FdTable.lowest_free t) (some r)).lookup
          (FdTable.lowest_free t : Int) = some r := by
        rw [FdTable.lookup_nat, FdTable.get_set_self]
      have hkeep : ∀ j x, FdTable.get t j = some x →
          FdTable.get (FdTable.set t (FdTable.lowest_free t) (some r)) j = some x := by
        intro j x hj
        have hjne : j ≠ FdTable.lowest_free t := by
          intro hc
          rw [hc, FdTable.get_lowest_free] at hj
          cases hj
        rw [FdTable.get_set_ne _ _ _ _ hjne]
        exact hj
      have hrec : ∃ t1 fd1, child_move_fd_above_2 k
          (FdTable.set t (FdTable.lowest_free t) (some r)) (FdTable.lowest_free t : Int)
            = some (t1, fd1) ∧ 3 ≤ fd1 ∧ t1.lookup fd1 = some r ∧
          ∀ j x, FdTable.get (FdTable.set t (FdTable.lowest_free t) (some r)) j = some x →
            FdTable.get t1 j = some x := by
        by_cases hlf : FdTable.lowest_free t ≤ 2
        · have hfl := FdTable.free_low_set t r hlf
          exact ih _ _ r hnew (by omega)
        · cases k with
          | zero => omega
          | succ k1 =>
            exact ⟨_, _, child_move_fd_above_2_high k1 _ _ (by omega), by omega, hnew,
              fun _ _ hj => hj⟩
      obtain ⟨t1, fd1, hr, h3, hl, hk⟩ := hrec
      refine ⟨t1, fd1, ?_, h3, hl, fun j x hj => hk j x (hkeep j x hj)⟩
      simp only [child_move_fd_above_2, if_pos hlow, hdup, if_neg hne, hr]
    · exact ⟨t, fd, by simp only [child_move_fd_above_2, if_neg hlow], by omega, hopen,
        fun _ _ hj => hj⟩

theorem FdTable.lookup_keep (t t1 : FdTable) (fd : Int) (r : Nat)
    (hk : ∀ j x, FdTable.get t j = some x → FdTable.get t1 j = some x)
    (h : t.lookup fd = some r) : t1.lookup fd = some r := by
  obtain ⟨n, hn, hg⟩ := FdTable.lookup_some t fd r h
  subst hn
  rw [FdTable.lookup_nat]
  exact hk n r hg

/-- The call `dup2(oldfd, k)` for an open `oldfd` above 2 and `k` in 0..2: `k` refers to what
`oldfd` does and every other descriptor is as before. -/
theorem sys_dup2_low (t : FdTable) (oldfd : Int) (r : Nat) (k : Nat)
    (hopen : t.lookup oldfd = some r) (h3 : 3 ≤ oldfd) (hk : k ≤ 2) :
    FdTable.get (sys_dup2 t oldfd (k : Int)).2 k = some r ∧
    ∀ j, j ≠ k → FdTable.get (sys_dup2 t oldfd (k : Int)).2 j = FdTable.get t j := by
  have h1 : ¬ ((k : Int) < 0) := by omega
  have h2 : ¬ (oldfd = (k : Int)) := by omega
  simp only [sys_dup2, hopen, if_neg h1, if_neg h2, Int.toNat_ofNat]
  exact ⟨FdTable.get_set_self _ _ _, fun j hj => FdTable.get_set_ne _ _ _ _ hj⟩

/-- The three relocations of `child_setup_pipes`: all return, each pipe end is above 2 and
refers to the file description it referred to. -/
theorem child_relocate_spec (fuel : Nat) (hfuel : 5 ≤ fuel) (t : FdTable) (h : Subprocess)
    (ra rb rc : Nat)
    (ha : t.lookup h.stdin_read = some ra) (hb : t.lookup h.stdout_write = some rb)
    (hc : t.lookup h.stderr_write = some rc) :
    ∃ t1 h1, h.child_relocate fuel t = some (t1, h1) ∧
      3 ≤ h1.stdin_read ∧ 3 ≤ h1.stdout_write ∧ 3 ≤ h1.stderr_write ∧
      t1.lookup h1.stdin_read = some ra ∧ t1.lookup h1.stdout_write = some rb ∧
      t1.lookup h1.stderr_write = some rc := by
  obtain ⟨ta, a, ea, a3, la, ka⟩ := child_move_fd_above_2_spec fuel t h.stdin_read ra ha
    (by have := FdTable.free_low_le t; omega)
  obtain ⟨tb, b, eb, b3, lb, kb⟩ := child_move_fd_above_2_spec fuel ta h.stdout_write rb
    (FdTable.lookup_keep t ta _ _ ka hb) (by have := FdTable.free_low_le ta; omega)
  obtain ⟨tc, c, ec, c3, lc, kc⟩ := child_move_fd_above_2_spec fuel tb h.stderr_write rc
    (FdTable.lookup_keep ta tb _ _ kb (FdTable.lookup_keep t ta _ _ ka hc))
    (by have := FdTable.free_low_le tb; omega)
  refine ⟨tc, { h with stdin_read := a, stdout_write := b, stderr_write := c }, ?_,
    a3, b3, c3, FdTable.lookup_keep tb tc _ _ kc (FdTable.lookup_keep ta tb _ _ kb la),
    FdTable.lookup_keep tb tc _ _ kc lb, lc⟩
  simp only [Subprocess.child_relocate, ea, eb, ec]

/-- Claim C10.  Standard-descriptor placement in the forked child.  For every descriptor table
in which the three child-side pipe ends (stdin-read, stdout-write, stderr-write) are open
descriptors, any of which may lie in 0..2, with `dup` returning the lowest free descriptor (it does
not fail on an open descriptor): the three calls of `child_move_fd_above_2` return (a recursion
depth of 5 is enough) and leave each of the three ends at a descriptor >= 3 that refers to the
same pipe end, before the first `dup2`; and after `child_setup_pipes` descriptor 0 refers to the
stdin-read end, 1 to the stdout-write end and 2 to the stderr-write end.  The ends need not be
pairwise distinct for this. -/
theorem child_setup_pipes_places_standard_fds (fuel : Nat) (hfuel : 5 ≤ fuel) (t : FdTable)
    (h : Subprocess) (ra rb rc : Nat)
    (ha : t.lookup h.stdin_read = some ra) (hb : t.lookup h.stdout_write = some rb)
    (hc : t.lookup h.stderr_write = some rc) :
    (∃ t1 h1, h.child_relocate fuel t = some (t1, h1) ∧
      3 ≤ h1.stdin_read ∧ 3 ≤ h1.stdout_write ∧ 3 ≤ h1.stderr_write ∧
      t1.lookup h1.stdin_read = some ra ∧ t1.lookup h1.stdout_write = some rb ∧
      t1.lookup h1.stderr_write = some rc) ∧
    (∃ t2 h2, h.child_setup_pipes fuel t = some (t2, h2) ∧
      t2.lookup 0 = some ra ∧ t2.lookup 1 = some rb ∧ t2.lookup 2 = some rc) := by
  obtain ⟨t1, h1, hrel, a3, b3, c3, la, lb, lc⟩ :=
    child_relocate_spec fuel hfuel t h ra rb rc ha hb hc
  refine ⟨⟨t1, h1, hrel, a3, b3, c3, la, lb, lc⟩, ?_⟩
  -- the three `dup2` calls
  obtain ⟨p0, q0⟩ := sys_dup2_low t1 h1.stdin_read ra 0 la a3 (by omega)
  have keep0 : ∀ (fd : Int) (r : Nat), 3 ≤ fd → t1.lookup fd = some r →
      (sys_dup2 t1 h1.stdin_read ((0 : Nat) : Int)).2.lookup fd = some r := by
    intro fd r h3 hl
    obtain ⟨n, hn, hg⟩ := FdTable.lookup_some t1 fd r hl
    subst hn
    rw [FdTable.lookup_nat, q0 n (by omega)]
    exact hg
  obtain ⟨p1, q1⟩ := sys_dup2_low (sys_dup2 t1 h1.stdin_read ((0 : Nat) : Int)).2
    h1.stdout_write rb 1 (keep0 _ _ b3 lb) b3 (by omega)
  have keep1 : ∀ (fd : Int) (r : Nat), 3 ≤ fd → t1.lookup fd = some r →
      (sys_dup2 (sys_dup2 t1 h1.stdin_read ((0 : Nat) : Int)).2 h1.stdout_write
        ((1 : Nat) : Int)).2.lookup fd = some r := by
    intro fd r h3 hl
    obtain ⟨n, hn, hg⟩ := FdTable.lookup_some t1 fd r hl
    subst hn
    rw [FdTable.lookup_nat, q1 n (by omega), q0 n (by omega)]
    exact hg
  obtain ⟨p2, q2⟩ := sys_dup2_low (sys_dup2 (sys_dup2 t1 h1.stdin_read ((0 : Nat) : Int)).2
    h1.stdout_write ((1 : Nat) : Int)).2 h1.stderr_write rc 2 (keep1 _ _ c3 lc) c3 (by omega)
  refine ⟨(sys_dup2 (sys_dup2 (sys_dup2 t1 h1.stdin_read ((0 : Nat) : Int)).2
    h1.stdout_write ((1 : Nat) : Int)).2 h1.stderr_write ((2 : Nat) : Int)).2, h1, ?_, ?_, ?_, ?_⟩
  · simp only [Subprocess.child_setup_pipes, hrel]
    rfl
  · have := FdTable.lookup_nat (sys_dup2 (sys_dup2 (sys_dup2 t1 h1.stdin_read
      ((0 : Nat) : Int)).2 h1.stdout_write ((1 : Nat) : Int)).2 h1.stderr_write
      ((2 : Nat) : Int)).2 0
    rw [q2 0 (by omega), q1 0 (by omega), p0] at this
    exact this
  · have := FdTable.lookup_nat (sys_dup2 (sys_dup2 (sys_dup2 t1 h1.stdin_read
      ((0 : Nat) : Int)).2 h1.stdout_write ((1 : Nat) : Int)).2 h1.stderr_write
      ((2 : Nat) : Int)).2 1
    rw [q2 1 (by omega), p1] at this
    exact this
  · have := FdTable.lookup_nat (sys_dup2 (sys_dup2 (sys_dup2 t1 h1.stdin_read
      ((0 : Nat) : Int)).2 h1.stdout_write ((1 : Nat) : Int)).2 h1.stderr_write
      ((2 : Nat) : Int)).2 2
    rw [p2] at this
    exact this

/-- Witness for C10: the stdin-read end is descriptor 1, the stdout-write end descriptor 0 and
the stderr-write end descriptor 4, with descriptor 2 free and 3 open on something else. -/
theorem child_setup_pipes_places_standard_fds_witness :
    (∃ t1 h1, ({ Subprocess.new with stdin_read := 1, stdout_write := 0, stderr_write := 4 }
        : Subprocess).child_relocate 5 [some 11, some 10, none, some 7, some 12]
        = some (t1, h1) ∧
      3 ≤ h1.stdin_read ∧ 3 ≤ h1.stdout_write ∧ 3 ≤ h1.stderr_write ∧
      t1.lookup h1.stdin_read = some 10 ∧ t1.lookup h1.stdout_write = some 11 ∧
      t1.lookup h1.stderr_write = some 12) ∧
    (∃ t2 h2, ({ Subprocess.new with stdin_read := 1, stdout_write := 0, stderr_write := 4 }
        : Subprocess).child_setup_pipes 5 [some 11, some 10, none, some 7, some 12]
        = some (t2, h2) ∧
      t2.lookup 0 = some 10 ∧ t2.lookup 1 = some 11 ∧ t2.lookup 2 = some 12) :=
  child_setup_pipes_places_standard_fds 5 (by decide) [some 11, some 10, none, some 7, some 12]
    { Subprocess.new with stdin_read := 1, stdout_write := 0, stderr_write := 4 } 10 11 12
    (by decide) (by decide) (by decide)

/-! ## The table handed to `poll` -/

theorem non_poll_of_five (junk : pollfd) (ev : Event) (h : ev.is_poll = false) :
    ev.poll_of_five junk := by
  cases ev <;> trivial

theorem five_slots_log (junk : pollfd) (s : State) (evs : List Event) (h : five_slots junk s)
    (hevs : ∀ ev ∈ evs, ev.is_poll = false) : five_slots junk (s.log evs) := by
  refine ⟨h.1, h.2.1, ?_⟩
  intro ev hev
  simp only [State.log, List.mem_append] at hev
  rcases hev with hev | hev
  · exact h.2.2 ev hev
  · exact non_poll_of_five junk ev (hevs ev hev)

theorem five_slots_log_one (junk : pollfd) (s : State) (ev : Event) (h : five_slots junk s)
    (hev : ev.is_poll = false) : five_slots junk (s.log [ev]) := by
  apply five_slots_log junk s _ h
  intro ev1 h1
  rw [List.mem_singleton.mp h1]
  exact hev

theorem close_is_not_poll (ev : Event) (h : ev.is_close = true) : ev.is_poll = false := by
  cases ev <;> simp_all [Event.is_close, Event.is_poll]

theorem launch_step_is_not_poll (ev : Event) (h : ev.is_launch_step = true) :
    ev.is_poll = false := by
  cases ev <;> simp_all [Event.is_launch_step, Event.is_poll]

theorem five_slots_cleanup_child (junk : pollfd) (s : State) (h : five_slots junk s) :
    five_slots junk (cleanup_child s) := by
  obtain ⟨evs, ht, hc⟩ := cleanup_child_trace s
  refine ⟨h.1, h.2.1, ?_⟩
  intro ev hev
  rw [ht, List.mem_append] at hev
  rcases hev with hev | hev
  · exact h.2.2 ev hev
  · exact non_poll_of_five junk ev (close_is_not_poll ev (hc ev hev))

theorem five_slots_cleanup_client (junk : pollfd) (s : State) (b : Bool)
    (h : five_slots junk s) : five_slots junk (cleanup_client s b) := by
  refine ⟨h.1, h.2.1, ?_⟩
  intro ev hev
  simp only [cleanup_client, List.mem_append] at hev
  rcases hev with hev | hev
  · exact h.2.2 ev hev
  · split at hev
    · cases b <;> simp at hev
      · subst hev; trivial
      · rcases hev with hev | hev <;> (subst hev; trivial)
    · simp at hev

theorem five_slots_set_listener_fd (junk : pollfd) (s : State) (v : Int)
    (h : five_slots junk s) : five_slots junk (s.set_listener_fd v) := h

theorem five_slots_set_client_fd (junk : pollfd) (s : State) (v : Int)
    (h : five_slots junk s) : five_slots junk (s.set_client_fd v) := h

theorem five_slots_teardown (junk : pollfd) (s : State) (b : Bool) (v : Int)
    (h : five_slots junk s) :
    five_slots junk ((cleanup_client (cleanup_child s) b).set_listener_fd v) :=
  five_slots_cleanup_client junk _ b (five_slots_cleanup_child junk s h)

theorem five_slots_detach (junk : pollfd) (s : State) (b : Bool) (v : Int)
    (h : five_slots junk s) : five_slots junk ((cleanup_client s b).set_listener_fd v) :=
  five_slots_cleanup_client junk s b h

theorem five_slots_sys_poll (junk : pollfd) (a : PollAnswer) (s : State)
    (h : five_slots junk s) : five_slots junk (sys_poll a s).2 := by
  have hev : (Event.sys_poll (s.fds.take NFDS) NFDS).poll_of_five junk :=
    ⟨rfl, rfl, s.fds4, rfl, h.1, h.2.1⟩
  cases hf : a.fail with
  | true =>
    rw [sys_poll_fail _ _ hf]
    refine ⟨h.1, h.2.1, ?_⟩
    intro ev hmem
    simp only [State.log, List.mem_append, List.mem_singleton] at hmem
    rcases hmem with hmem | hmem
    · exact h.2.2 ev hmem
    · subst hmem; exact hev
  | false =>
    rw [sys_poll_ok _ _ hf]
    refine ⟨h.1, h.2.1, ?_⟩
    intro ev hmem
    simp only [List.mem_append, List.mem_singleton] at hmem
    rcases hmem with hmem | hmem
    · exact h.2.2 ev hmem
    · subst hmem; exact hev

theorem five_slots_stage_poll (junk : pollfd) (e : IterEnv) (s : State)
    (h : five_slots junk s) : five_slots junk (stage_poll e s).state := by
  rw [stage_poll_state]; exact five_slots_sys_poll junk _ _ h

theorem five_slots_start_tunnel_process (junk : pollfd) (argc : Int) (env : LaunchEnv)
    (s : State) (h : five_slots junk s) :
    five_slots junk (start_tunnel_process argc env s).2 := by
  obtain ⟨-, -, f4, -, evs, ft, fe⟩ := start_tunnel_process_frame argc env s
  refine ⟨by rw [f4]; exact h.1, by rw [f4]; exact h.2.1, ?_⟩
  intro ev hev
  rw [ft, List.mem_append] at hev
  rcases hev with hev | hev
  · exact h.2.2 ev hev
  · exact non_poll_of_five junk ev (launch_step_is_not_poll ev (fe ev hev))

theorem five_slots_listener (junk : pollfd) (argc : Int) (e : IterEnv) (s : State)
    (h : five_slots junk s) : five_slots junk (stage_listener argc e s).state := by
  simp only [stage_listener]
  split
  · have h1 := five_slots_log_one junk s (Event.sys_accept s.listener.fd s.client.fd
      (sys_accept s.listener.fd e.accept)) h rfl
    split
    · exact h1
    · have h2 : five_slots junk (((s.log [Event.sys_accept s.listener.fd s.client.fd
          (sys_accept s.listener.fd e.accept)]).set_listener_fd (-1)).set_client_fd
          (sys_accept s.listener.fd e.accept)) := h1
      have h3 := five_slots_start_tunnel_process junk argc e.launch _ h2
      split
      · exact h2
      · split
        · exact h3
        · exact h3
  · exact h

theorem five_slots_stdout_hup (junk : pollfd) (ls : Int) (s : State) (h : five_slots junk s) :
    five_slots junk (stage_stdout_hup ls s).state := by
  simp only [stage_stdout_hup]
  split
  · exact five_slots_teardown junk _ _ _ h
  · exact h

theorem five_slots_stdout_data (junk : pollfd) (ls : Int) (e : IterEnv) (s : State)
    (h : five_slots junk s) : five_slots junk (stage_stdout_data ls e s).state := by
  simp only [stage_stdout_data]
  split
  · have h1 := five_slots_log_one junk s (Event.sys_read s.child_stdout.fd
      (sys_read s.child_stdout.fd BUF_SIZ e.read_stdout).1
      (sys_read s.child_stdout.fd BUF_SIZ e.read_stdout).2) h rfl
    split
    · exact five_slots_teardown junk _ _ _ h1
    · split
      · exact five_slots_teardown junk _ _ _ h1
      · split
        · split
          · exact five_slots_set_client_fd junk _ _ (five_slots_log_one junk _ _
              (five_slots_log_one junk _ _ h1 rfl) rfl)
          · exact five_slots_log_one junk _ _ h1 rfl
        · exact h1
  · exact h

theorem five_slots_stderr (junk : pollfd) (ls : Int) (e : IterEnv) (s : State)
    (h : five_slots junk s) : five_slots junk (stage_stderr ls e s).state := by
  simp only [stage_stderr]
  split
  · have h1 := five_slots_log_one junk s (Event.sys_read s.child_stderr.fd
      (sys_read s.child_stderr.fd (BUF_SIZ - 1) e.read_stderr).1
      (sys_read s.child_stderr.fd (BUF_SIZ - 1) e.read_stderr).2) h rfl
    split
    · exact five_slots_teardown junk _ _ _ h1
    · split
      · exact five_slots_teardown junk _ _ _ h1
      · exact h1
  · exact h

theorem five_slots_client_hup (junk : pollfd) (ls : Int) (s : State) (h : five_slots junk s) :
    five_slots junk (stage_client_hup ls s).state := by
  simp only [stage_client_hup]
  split
  · exact five_slots_detach junk _ _ _ h
  · exact h

theorem five_slots_client_data (junk : pollfd) (ls : Int) (e : IterEnv) (s : State)
    (h : five_slots junk s) : five_slots junk (stage_client_data ls e s).state := by
  simp only [stage_client_data]
  split
  · have h1 := five_slots_log_one junk s (Event.sys_read s.client.fd
      (sys_read s.client.fd BUF_SIZ e.read_client).1
      (sys_read s.client.fd BUF_SIZ e.read_client).2) h rfl
    split
    · exact five_slots_detach junk _ _ _ h1
    · split
      · exact five_slots_detach junk _ _ _ h1
      · split
        · exact five_slots_detach junk _ _ _ h1
        · split
          · exact five_slots_cleanup_client junk _ _ (five_slots_set_listener_fd junk _ _
              (five_slots_cleanup_child junk _ (five_slots_log_one junk _ _ h1 rfl)))
          · exact five_slots_log_one junk _ _ h1 rfl
  · exact h

theorem five_slots_iteration (junk : pollfd) (ls argc : Int) (e : IterEnv) (s : State)
    (h : five_slots junk s) : five_slots junk (iteration ls argc e s).state := by
  unfold iteration
  refine Flow.andThen_state _ _ _ (Flow.andThen_state _ _ _ (Flow.andThen_state _ _ _
    (Flow.andThen_state _ _ _ (Flow.andThen_state _ _ _ (Flow.andThen_state _ _ _
    (five_slots_stage_poll junk e s h) ?_) ?_) ?_) ?_) ?_) ?_
  · intro s1 _ h1; exact five_slots_listener junk argc e s1 h1
  · intro s1 _ h1; exact five_slots_stdout_hup junk ls s1 h1
  · intro s1 _ h1; exact five_slots_stdout_data junk ls e s1 h1
  · intro s1 _ h1; exact five_slots_stderr junk ls e s1 h1
  · intro s1 _ h1; exact five_slots_client_hup junk ls s1 h1
  · intro s1 _ h1; exact five_slots_client_data junk ls e s1 h1

theorem five_slots_run_loop (junk : pollfd) (ls argc : Int) (envs : List IterEnv) :
    ∀ s, five_slots junk s → five_slots junk (run_loop ls argc envs s).1 := by
  induction envs with
  | nil => intro s h; exact h
  | cons e es ih =>
    intro s h
    have h1 := five_slots_iteration junk ls argc e s h
    unfold run_loop
    cases hit : iteration ls argc e s with
    | pass s1 => rw [hit] at h1; exact ih s1 h1
    | next s1 => rw [hit] at h1; exact ih s1 h1
    | exit s1 err => rw [hit] at h1; exact h1

theorem five_slots_init (ls : Int) (junk : pollfd) : five_slots junk (init_state ls junk) :=
  ⟨rfl, rfl, by intro ev hev; simp [init_state] at hev⟩

theorem five_slots_handle_requests (ls argc : Int) (junk : pollfd) (envs : List IterEnv) :
    five_slots junk (handle_requests ls argc junk envs).1 := by
  have hrun := five_slots_run_loop junk ls argc envs (init_state ls junk)
    (five_slots_init ls junk)
  cases hr : (run_loop ls argc envs (init_state ls junk)).2 with
  | none =>
    rw [handle_requests_of_none _ _ _ _ hr]
    exact hrun
  | some err =>
    rw [handle_requests_of_some _ _ _ _ _ hr]
    exact five_slots_cleanup_client junk _ _ (five_slots_cleanup_child junk _ hrun)

/-- Claim C11 (code defect).  The table handed to `poll` has five entries, not four.  In every
run of `handle_requests`, every `poll` recorded in the trace was called with `nfds == 5` on a
table of five entries whose fifth entry `fds[4]` carries the descriptor and the interest mask of
the never-assigned stack content `junk`.  That entry is monitored: when the stack content names
descriptor 0 with interest in input and only that descriptor is readable, `poll` returns 1
instead of timing out with 0, stores the readiness in `fds[4].revents`, and the loop body runs
through all its branches; with a negative descriptor in the stack content the same `poll`
returns 0. -/
theorem poll_is_handed_five_entries :
    (∀ (listening_sock child_argc : Int) (junk : pollfd) (envs : List IterEnv)
        (fds : List pollfd) (nfds : Nat),
      Event.sys_poll fds nfds ∈ (handle_requests listening_sock child_argc junk envs).1.trace →
      nfds = 5 ∧ fds.length = 5 ∧
        ∃ p, fds.get? 4 = some p ∧ p.fd = junk.fd ∧ p.events = junk.events) ∧
    (handle_requests 3 1 junk_stdin [env_fifth_ready]).1.trace =
      [Event.sys_poll
        [{ fd := 3, events := 1, revents := 0 }, { fd := -1, events := 25, revents := 0 },
          { fd := -1, events := 1, revents := 0 }, { fd := -1, events := 25, revents := 0 },
          { fd := 0, events := 1, revents := 0 }] 5] ∧
    (sys_poll env_fifth_ready.poll (init_state 3 junk_stdin)).1 = 1 ∧
    (sys_poll env_fifth_ready.poll (init_state 3 junk_stdin)).2.fds4.revents = POLLIN ∧
    iteration 3 1 env_fifth_ready (init_state 3 junk_stdin) =
      Flow.pass (sys_poll env_fifth_ready.poll (init_state 3 junk_stdin)).2 ∧
    (sys_poll env_fifth_ready.poll (init_state 3 junk0)).1 = 0 := by
  refine ⟨?_, by decide, by decide, by decide, by decide, by decide⟩
  intro ls argc junk envs fds nfds hmem
  exact (five_slots_handle_requests ls argc junk envs).2.2 _ hmem

end SimpleTcpMux
